import Mathlib

/-!
Verification development for the Hydrology Copilot frontend
(NASAWaterInsight/Frontend-Copilot-NLDAS-3).

The TypeScript sources are shallowly embedded:
* JavaScript numbers are modelled by `JSNum` (finite rationals plus
  `NaN` and the two infinities); `Math.round` is `⌊x + 1/2⌋`.
* Browser `localStorage` is a map from keys to optional strings.
* `fetch`/DOM/GeoTIFF effects are modelled by environments recording
  each external step's outcome (`Except` for steps that may throw).
* Absent/`undefined` fields are `Option`; JS truthiness is made
  explicit at each use site.
-/

namespace Spec2Proof

/-- Model of a JavaScript number: `NaN`, `Infinity`, `-Infinity`, or a
finite value (idealised as an exact rational). -/
inductive JSNum where
  | nan : JSNum
  | posinf : JSNum
  | neginf : JSNum
  | num : ℚ → JSNum
deriving DecidableEq, Repr

/-- JS `isFinite` on an already-numeric value. -/
def jsIsFinite : JSNum → Bool
  | .num _ => true
  | _ => false

/-- JS `<=` between numbers (`NaN` compares false to everything). -/
def jsLe : JSNum → JSNum → Bool
  | .nan, _ => false
  | _, .nan => false
  | .neginf, _ => true
  | _, .posinf => true
  | .posinf, _ => false
  | _, .neginf => false
  | .num a, .num b => a ≤ b

/-- JS `<` between numbers (`NaN` compares false to everything). -/
def jsLt : JSNum → JSNum → Bool
  | .nan, _ => false
  | _, .nan => false
  | .posinf, _ => false
  | .neginf, .neginf => false
  | .neginf, _ => true
  | _, .neginf => false
  | .num _, .posinf => true
  | .num a, .num b => a < b

/-- JS `Math.round` on a finite value: round half toward positive
infinity, i.e. `⌊x + 1/2⌋`. -/
def jround (q : ℚ) : ℤ := Int.floor (q + 1 / 2)

/-- JS `Math.round` on a general number (`NaN` and infinities are
returned unchanged). -/
def jsRound : JSNum → JSNum
  | .num q => .num (jround q)
  | x => x

/-- `x + b` for a finite constant `b` (NaN and infinities absorb). -/
def jsAddC : JSNum → ℚ → JSNum
  | .num q, b => .num (q + b)
  | x, _ => x

/-- `x - b` for a finite constant `b` (NaN and infinities absorb). -/
def jsSubC : JSNum → ℚ → JSNum
  | .num q, b => .num (q - b)
  | x, _ => x

/-- `a + x` for a finite constant `a`. -/
def jsAddQ (a : ℚ) : JSNum → JSNum
  | .num q => .num (a + q)
  | x => x

/-- `a * x` for a finite constant `a`, with the IEEE rules
`0 * ±∞ = NaN` and sign propagation into infinities. -/
def jsMulQ (a : ℚ) : JSNum → JSNum
  | .nan => .nan
  | .num q => .num (a * q)
  | .posinf => if a = 0 then .nan else if 0 < a then .posinf else .neginf
  | .neginf => if a = 0 then .nan else if 0 < a then .neginf else .posinf

/-- `a / b` for finite operands: `0/0 = NaN`, `a/0 = ±∞` otherwise. -/
def jsDivQ (a b : ℚ) : JSNum :=
  if b = 0 then (if a = 0 then .nan else if 0 < a then .posinf else .neginf)
  else .num (a / b)

/-- `x / b` for a finite divisor `b` (division of an infinity by a
finite number keeps an infinity with the combined sign). -/
def jsDivC : JSNum → ℚ → JSNum
  | .nan, _ => .nan
  | .num q, b => jsDivQ q b
  | .posinf, b => if b < 0 then .neginf else .posinf
  | .neginf, b => if b < 0 then .posinf else .neginf

/-- JS `Math.min(a, x)` for a finite constant `a` (NaN absorbs). -/
def jsMinQ (a : ℚ) : JSNum → JSNum
  | .nan => .nan
  | .num q => .num (min a q)
  | .posinf => .num a
  | .neginf => .neginf

/-- JS `Math.max(a, x)` for a finite constant `a` (NaN absorbs). -/
def jsMaxQ (a : ℚ) : JSNum → JSNum
  | .nan => .nan
  | .num q => .num (max a q)
  | .posinf => .posinf
  | .neginf => .num a

/-- Truthiness of a JS number: `0` and `NaN` are falsy. -/
def jsTruthyN : JSNum → Bool
  | .nan => false
  | .num q => q ≠ 0
  | _ => true

/-- `Number.prototype.toString` restricted to the values that occur in
backend tile lists: `NaN`, infinities and integers.  (JS prints a
decimal expansion for non-integer finite doubles; non-integer tile
indices do not occur and no theorem below depends on that case.) -/
def jsNumToString : JSNum → String
  | .nan => "NaN"
  | .posinf => "Infinity"
  | .neginf => "-Infinity"
  | .num q => if q.den = 1 then toString q.num else toString q

/-- Prefix test on character lists (executable model of
`String.prototype.startsWith`). -/
def charsStartsWith : List Char → List Char → Bool
  | _, [] => true
  | [], _ :: _ => false
  | c :: cs, p :: ps => c = p && charsStartsWith cs ps

/-- JS `s.startsWith(p)`. -/
def strStartsWith (s p : String) : Bool := charsStartsWith s.data p.data

/-- Substring search on character lists. -/
def charsIncludes (pat : List Char) : List Char → Bool
  | [] => charsStartsWith [] pat
  | c :: t => charsStartsWith (c :: t) pat || charsIncludes pat t

/-- JS `String.prototype.includes`: `pat` occurs somewhere in `s`. -/
def strIncludes (s pat : String) : Bool := charsIncludes pat.data s.data

/-- JS `String.prototype.toLowerCase` (ASCII, as the variable names
here are ASCII). -/
def strToLower (s : String) : String := String.mk (s.data.map Char.toLower)

/-- Truthiness of an optional JS string (`undefined` and `""` falsy). -/
def sTruthy : Option String → Bool
  | none => false
  | some s => s ≠ ""

/-! ### Colormap utilities (the `getVariableColor` module)

Embeds the dynamic color-mapping file: `getVariableColor`,
`interpolateColormap`, `hexToRgb`, `detectVariableType` and the
variable-specific fallback color functions.  `Math.sin` is a platform
primitive and is threaded through as a parameter `jsSin`. -/

/-- The value of JS `Math.PI` (idealised as this decimal rational). -/
def piQ : ℚ := 3.141592653589793

/-- A character matched by the regex class `[a-f\d]` (case-insensitive). -/
def isHexDigit (c : Char) : Bool :=
  c.isDigit || ('a' ≤ c && c ≤ 'f') || ('A' ≤ c && c ≤ 'F')

/-- Numeric value of one hex digit (as used by `parseInt(..., 16)`). -/
def hexVal (c : Char) : ℕ :=
  if c.isDigit then c.toNat - '0'.toNat
  else if 'a' ≤ c then c.toNat - 'a'.toNat + 10
  else c.toNat - 'A'.toNat + 10

/-- The regex's optional leading `#`. -/
def hexStrip : List Char → List Char
  | '#' :: rest => rest
  | other => other

/-- The regex's three groups of two hex digits: exactly six hex
characters decode to the channel bytes, anything else is gray. -/
def hexDecode : List Char → ℤ × ℤ × ℤ
  | [a, b, c, d, e, f] =>
    if isHexDigit a && isHexDigit b && isHexDigit c && isHexDigit d &&
        isHexDigit e && isHexDigit f then
      ((16 * hexVal a + hexVal b : ℕ), (16 * hexVal c + hexVal d : ℕ),
        (16 * hexVal e + hexVal f : ℕ))
    else (128, 128, 128)
  | _ => (128, 128, 128)

/-- `hexToRgb`: match `^#?([a-f\d]{2})([a-f\d]{2})([a-f\d]{2})$` (case
insensitive) and decode the three channel bytes; any non-matching
string yields the gray fallback `[128, 128, 128]`. -/
def hexToRgb (hex : String) : ℤ × ℤ × ℤ := hexDecode (hexStrip hex.data)

/-- `detectVariableType`: substring dispatch on the lowercased name. -/
def detectVariableType (varName : String) : String :=
  let varLower := strToLower varName
  if strIncludes varLower "spi" || strIncludes varLower "drought" then "spi"
  else if strIncludes varLower "temp" || strIncludes varLower "tair" then "temperature"
  else if strIncludes varLower "rain" || strIncludes varLower "precip" then "precipitation"
  else if strIncludes varLower "press" || strIncludes varLower "psurf" then "pressure"
  else if strIncludes varLower "wind" || strIncludes varLower "uwind" ||
      strIncludes varLower "vwind" then "wind"
  else if strIncludes varLower "humid" || strIncludes varLower "qair" then "humidity"
  else if strIncludes varLower "radiation" || strIncludes varLower "swdown" ||
      strIncludes varLower "lwdown" then "radiation"
  else if strIncludes varLower "soil" then "soil"
  else "generic"

/-- An RGB triple of finite integer channels, as a JS-number triple. -/
def rgbn (r g b : ℚ) : JSNum × JSNum × JSNum := (.num r, .num g, .num b)

/-- Lift a decoded `hexToRgb` triple into JS-number channels. -/
def intRgb (t : ℤ × ℤ × ℤ) : JSNum × JSNum × JSNum :=
  (.num t.1, .num t.2.1, .num t.2.2)

/-- One interpolated channel: `Math.round(c1 + (c2 - c1) * ratio)`. -/
def lerpChan (c1 c2 : ℤ) (r : JSNum) : JSNum :=
  jsRound (jsAddQ (c1 : ℚ) (jsMulQ ((c2 : ℚ) - (c1 : ℚ)) r))

/-- The scanning loop of `interpolateColormap`: find the first `i` with
`values[i] <= value <= values[i+1]` and interpolate there.  The two
lists are walked in lockstep; the caller has already checked they have
equal length, which makes this identical to the JS index loop. -/
def interpScan (value : JSNum) : List String → List ℚ → Option (JSNum × JSNum × JSNum)
  | c1 :: c2 :: cs, v1 :: v2 :: vs =>
    if jsLe (.num v1) value && jsLe value (.num v2) then
      let r := jsDivC (jsSubC value v1) (v2 - v1)
      let rgb1 := hexToRgb c1
      let rgb2 := hexToRgb c2
      some (lerpChan rgb1.1 rgb2.1 r, lerpChan rgb1.2.1 rgb2.2.1 r,
        lerpChan rgb1.2.2 rgb2.2.2 r)
    else interpScan value (c2 :: cs) (v2 :: vs)
  | _, _ => none

/-- `interpolateColormap`.  Mismatched lengths give gray; a value in
some bracket is linearly interpolated at the first such bracket; a
value left of all stops gives the first color, otherwise the last.
(JS indexes `colors[-1]`/`undefined` when the lists are empty; the
string coercion of that makes `hexToRgb` return gray, mirrored here by
a `""` default.) -/
def interpolateColormap (value : JSNum) (colors : List String) (values : List ℚ) :
    JSNum × JSNum × JSNum :=
  if values.length ≠ colors.length then (.num 128, .num 128, .num 128)
  else
    match interpScan value colors values with
    | some rgb => rgb
    | none =>
      match values.head? with
      | some v0 =>
        if jsLt value (.num v0) then intRgb (hexToRgb (colors.headD ""))
        else intRgb (hexToRgb (colors.getLastD ""))
      | none => intRgb (hexToRgb (colors.getLastD ""))

/-- SPI / drought color classes. -/
def getSPIColor (spiValue : JSNum) : JSNum × JSNum × JSNum :=
  if jsLe spiValue (.num (-2)) then rgbn 139 0 0
  else if jsLe spiValue (.num (-1.5)) then rgbn 255 0 0
  else if jsLe spiValue (.num (-1)) then rgbn 255 140 0
  else if jsLe spiValue (.num (-0.5)) then rgbn 255 255 0
  else if jsLe spiValue (.num 0.5) then rgbn 144 238 144
  else if jsLe spiValue (.num 1) then rgbn 0 191 255
  else if jsLe spiValue (.num 1.5) then rgbn 0 0 255
  else rgbn 0 0 139

/-- Temperature colors: clamp `(temp + 40) / 90` to `[0, 1]` then mix
blue to red with a sine-shaped green channel.  The clamp yields a
finite value or NaN; the catch-all branch is the NaN case (all three
rounded channels are then NaN). -/
def getTemperatureColor (jsSin : ℚ → ℚ) (temp : JSNum) : JSNum × JSNum × JSNum :=
  let normalized := jsMaxQ 0 (jsMinQ 1 (jsDivC (jsAddC temp 40) 90))
  match normalized with
  | .num n =>
    (.num (jround (255 * n)), .num (jround (128 * jsSin (n * piQ))),
      .num (jround (255 * (1 - n))))
  | _ => (.nan, .nan, .nan)

/-- Precipitation colors: white to blue over `0..100`. -/
def getPrecipitationColor (precip : JSNum) : JSNum × JSNum × JSNum :=
  let normalized := jsMaxQ 0 (jsMinQ 1 (jsDivC precip 100))
  match normalized with
  | .num n =>
    (.num (jround (255 * (1 - n))), .num (jround (255 * (1 - n * 0.5))), .num 255)
  | _ => (.nan, .nan, .num 255)

/-- Pressure colors: purple to yellow over `980..1040`. -/
def getPressureColor (pressure : JSNum) : JSNum × JSNum × JSNum :=
  let normalized := jsMaxQ 0 (jsMinQ 1 (jsDivC (jsSubC pressure 980) 60))
  match normalized with
  | .num n =>
    (.num (jround (128 + 127 * n)), .num (jround (0 + 255 * n)),
      .num (jround (128 * (1 - n))))
  | _ => (.nan, .nan, .nan)

/-- Wind colors: green to red over `0..50`. -/
def getWindColor (wind : JSNum) : JSNum × JSNum × JSNum :=
  let normalized := jsMaxQ 0 (jsMinQ 1 (jsDivC wind 50))
  match normalized with
  | .num n => (.num (jround (255 * n)), .num (jround (255 * (1 - n))), .num 0)
  | _ => (.nan, .nan, .num 0)

/-- Humidity colors: brown to cyan over `0..1`. -/
def getHumidityColor (humidity : JSNum) : JSNum × JSNum × JSNum :=
  let normalized := jsMaxQ 0 (jsMinQ 1 humidity)
  match normalized with
  | .num n =>
    (.num (jround (139 * (1 - n))), .num (jround (69 + 186 * n)),
      .num (jround (19 + 236 * n)))
  | _ => (.nan, .nan, .nan)

/-- Radiation colors: black to yellow over `0..1000`. -/
def getRadiationColor (radiation : JSNum) : JSNum × JSNum × JSNum :=
  let normalized := jsMaxQ 0 (jsMinQ 1 (jsDivC radiation 1000))
  match normalized with
  | .num n =>
    (.num (jround (255 * n)), .num (jround (255 * n)), .num (jround (100 * n)))
  | _ => (.nan, .nan, .nan)

/-- Soil colors: yellow to brown over `0..1`. -/
def getSoilColor (soil : JSNum) : JSNum × JSNum × JSNum :=
  let normalized := jsMaxQ 0 (jsMinQ 1 soil)
  match normalized with
  | .num n =>
    (.num (jround (255 - 100 * n)), .num (jround (255 - 155 * n)),
      .num (jround (0 + 139 * n)))
  | _ => (.nan, .nan, .nan)

/-- Generic grayscale with a blue floor, over `-2..2`. -/
def getGenericColor (value : JSNum) : JSNum × JSNum × JSNum :=
  let normalized := jsMaxQ 0 (jsMinQ 1 (jsDivC (jsAddC value 2) 4))
  match normalized with
  | .num n =>
    let base := jround (255 * n)
    (.num base, .num base, .num (max 100 base))
  | _ => (.nan, .nan, .nan)

/-- A backend-provided colormap object; `colors`/`values` may be absent
(JS arrays are truthy even when empty, so presence is `Option`). -/
structure Colormap where
  colors : Option (List String)
  values : Option (List ℚ)
deriving DecidableEq, Repr

/-- The `switch` over `detectVariableType` in `getVariableColor`. -/
def fallbackColor (jsSin : ℚ → ℚ) (value : JSNum) (varName : String) :
    JSNum × JSNum × JSNum :=
  match detectVariableType varName with
  | "spi" => getSPIColor value
  | "temperature" => getTemperatureColor jsSin value
  | "precipitation" => getPrecipitationColor value
  | "pressure" => getPressureColor value
  | "wind" => getWindColor value
  | "humidity" => getHumidityColor value
  | "radiation" => getRadiationColor value
  | "soil" => getSoilColor value
  | _ => getGenericColor value

/-- `getVariableColor`: NaN input is white (the JS `null`/`undefined`
guard also returns white and is outside the numeric domain modelled
here); a colormap with both `colors` and `values` interpolates;
otherwise a variable-specific fallback scheme applies. -/
def getVariableColor (jsSin : ℚ → ℚ) (value : JSNum) (varName : String)
    (colormap : Option Colormap) : JSNum × JSNum × JSNum :=
  if value = .nan then (.num 255, .num 255, .num 255)
  else
    match colormap with
    | some cm =>
      match cm.colors, cm.values with
      | some cols, some vals => interpolateColormap value cols vals
      | _, _ => fallbackColor jsSin value varName
    | none => fallbackColor jsSin value varName

/-! ### Tile coordinate utilities (`src/utils/tileUtils.ts`)

The tile math calls `Math.log`, `Math.tan`, `Math.cos`, `Math.atan`
and `Math.sinh`; these are idealised as the exact real functions, so
this part of the model is stated over `ℝ`. -/

/-- Latitude/longitude bounds of a tile. -/
structure TileBoundsR where
  north : ℝ
  south : ℝ
  east : ℝ
  west : ℝ

/-- `lonLatToTile`: Web-Mercator tile indices of a point at a zoom. -/
noncomputable def lonLatToTile (lon lat : ℝ) (zoom : ℕ) : ℤ × ℤ × ℕ :=
  (⌊(lon + 180) / 360 * (2 : ℝ) ^ zoom⌋,
   ⌊(1 - Real.log (Real.tan (lat * Real.pi / 180) +
       1 / Real.cos (lat * Real.pi / 180)) / Real.pi) / 2 * (2 : ℝ) ^ zoom⌋,
   zoom)

/-- `tileToBounds`: geographic bounds of tile `(x, y)` at a zoom. -/
noncomputable def tileToBounds (x y : ℕ) (zoom : ℕ) : TileBoundsR :=
  let n : ℝ := (2 : ℝ) ^ zoom
  { west := x / n * 360 - 180
    east := (x + 1) / n * 360 - 180
    north := Real.arctan (Real.sinh (Real.pi * (1 - 2 * y / n))) * 180 / Real.pi
    south := Real.arctan (Real.sinh (Real.pi * (1 - 2 * (y + 1) / n))) * 180 / Real.pi }

/-! ### Loosely-typed JS values

`use_tiles` arrives untyped from the backend; the map view checks it
with strict `=== true` while the service checks truthiness, so the
field is modelled as a primitive JS value. -/

/-- A primitive JS value (enough for the loosely-typed payload slots). -/
inductive JVal where
  | vbool : Bool → JVal
  | vnum : JSNum → JVal
  | vstr : String → JVal
  | vnull : JVal
deriving DecidableEq, Repr

/-- Truthiness of an optional JS value. -/
def jTruthy : Option JVal → Bool
  | none => false
  | some .vnull => false
  | some (.vbool b) => b
  | some (.vnum n) => jsTruthyN n
  | some (.vstr s) => s ≠ ""

/-- Strict equality to `true` (`x === true`). -/
def jStrictTrue (v : Option JVal) : Bool := v = some (.vbool true)

/-! ### User identity (`getStableUserId` module)

`localStorage` is a map from keys to optional strings; `Math.random()*16|0`
is a stream of values in `0..15`, supplied as `rnd`. -/

/-- The one localStorage key used for the stable user id. -/
def STORAGE_KEY : String := "hydrology_copilot_user_id"

/-- Browser localStorage contents. -/
def Storage : Type := String → Option String

/-- `localStorage.setItem`. -/
def setItem (k v : String) (s : Storage) : Storage :=
  fun k2 => if k2 = k then some v else s k2

/-- `v.toString(16)` for a single value `v < 16`. -/
def hexDigit (n : ℕ) : Char := "0123456789abcdef".data.getD n '0'

/-- The UUID v4 template string. -/
def uuidTemplate : String := "xxxxxxxx-xxxx-4xxx-yxxx-xxxxxxxxxxxx"

/-- The `replace(/[xy]/g, ...)` callback applied along the template:
each `x` takes a fresh random digit `r`, each `y` takes `r & 0x3 | 0x8`,
other characters are kept. -/
def uuidFill (rnd : ℕ → Fin 16) : ℕ → List Char → List Char
  | _, [] => []
  | i, c :: cs =>
    if c = 'x' then hexDigit (rnd i) :: uuidFill rnd (i + 1) cs
    else if c = 'y' then hexDigit (((rnd i).val &&& 3) ||| 8) :: uuidFill rnd (i + 1) cs
    else c :: uuidFill rnd i cs

/-- `generateUUID`. -/
def generateUUID (rnd : ℕ → Fin 16) : String :=
  String.mk (uuidFill rnd 0 uuidTemplate.data)

/-- `getCurrentUserEmail` — no auth system, always `null`. -/
def getCurrentUserEmail : Option String := none

/-- `getAuthenticatedUser`. -/
def getAuthenticatedUser : Option String := getCurrentUserEmail

/-- `getStableUserId`.  `hashEmail` (SHA-256, a platform primitive) is
abstract; that branch is dead because `getAuthenticatedUser` is `null`.
Note the truthiness check `if (!userId)`: an empty stored string is
regenerated. -/
def getStableUserId (rnd : ℕ → Fin 16) (hashEmail : String → String)
    (s : Storage) : String × Storage :=
  match getAuthenticatedUser with
  | some email => (hashEmail email, s)
  | none =>
    let stored := s STORAGE_KEY
    if sTruthy stored then (stored.getD "", s)
    else
      let u := generateUUID rnd
      (u, setItem STORAGE_KEY u s)

/-! ### Backend API client (`src/services/multiAgent.ts`) -/

/-- The configured API base. -/
def API_BASE_URL : String := "http://localhost:8000"

/-- The `requestData` argument of `callMultiAgentFunction`: a bare
string, or an object carrying optional `data.query` and `query`. -/
inductive ReqInput where
  | str : String → ReqInput
  | obj : Option String → Option String → ReqInput
deriving DecidableEq, Repr

/-- The value that ends up bound to `query` in the request body. -/
inductive QueryVal where
  | str : String → QueryVal
  | raw : ReqInput → QueryVal
deriving DecidableEq, Repr

/-- `requestData.data?.query || requestData.query || requestData`. -/
def extractQuery : ReqInput → QueryVal
  | .str s => .str s
  | .obj dq q =>
    if sTruthy dq then .str (dq.getD "")
    else if sTruthy q then .str (q.getD "")
    else .raw (.obj dq q)

/-- The HTTP request the service sends to the chat endpoint. -/
structure ChatHttpRequest where
  method : String
  url : String
  headers : List (String × String)
  body : List (String × QueryVal)
deriving DecidableEq, Repr

/-- The `fetch(endpoint, {...})` call assembled by
`callMultiAgentFunction`: POST with a JSON body `{query, user_id}`. -/
def buildChatRequest (requestData : ReqInput) (userId : String) : ChatHttpRequest :=
  { method := "POST"
    url := API_BASE_URL ++ "/api/chat"
    headers := [("Content-Type", "application/json"), ("X-User-Id", userId)]
    body := [("query", extractQuery requestData), ("user_id", .str userId)] }

/-! ### The response transform of `callMultiAgentFunction` -/

/-- A GeoJSON feature as the transform reads it.  Coordinate slots and
`properties.value` are `none` when absent or non-numeric (both fail the
`typeof ... === 'number'` test identically). -/
structure RawGeometry where
  coordinates : Option (List (Option JSNum))
deriving DecidableEq, Repr

/-- The `properties` bag of a feature. -/
structure RawProps where
  value : Option JSNum
  «variable» : Option String
  unit : Option String
deriving DecidableEq, Repr

/-- A feature; list slots holding falsy non-objects are `none` at the
list level. -/
structure RawFeature where
  geometry : Option RawGeometry
  properties : Option RawProps
deriving DecidableEq, Repr

/-- A GeoJSON payload. -/
structure RawGeoJson where
  features : Option (List (Option RawFeature))
deriving DecidableEq, Repr

/-- Bounds object of a backend payload. -/
structure RawBounds where
  north : JSNum
  south : JSNum
  east : JSNum
  west : JSNum
deriving DecidableEq, Repr

/-- Bounds attached to one backend tile. -/
structure TileBoundsQ where
  north : JSNum
  south : JSNum
  east : JSNum
  west : JSNum
deriving DecidableEq, Repr

/-- One entry of a backend `tile_list`.  `url` is `none` when absent or
not a string; `z`/`x`/`y` are `none` when absent or not numbers. -/
structure TileEntry where
  url : Option String
  bounds : Option TileBoundsQ
  z : Option JSNum
  x : Option JSNum
  y : Option JSNum
deriving DecidableEq, Repr

/-- The raw `tile_config` of a backend payload. -/
structure RawTileConfig where
  tile_url : Option String
  «variable» : Option String
  date : Option String
  min_zoom : Option JSNum
  max_zoom : Option JSNum
  tile_size : Option JSNum
  bounds_endpoint : Option String
  tile_list : Option (List (Option TileEntry))
  region_bounds : Option TileBoundsQ
  tile_count : Option JSNum
  color_scale : Option String
deriving DecidableEq, Repr

/-- The raw `map_config` of a backend payload. -/
structure RawMapConfig where
  zoom : Option JSNum
  style : Option String
  overlay_mode : Option Bool
deriving DecidableEq, Repr

/-- The raw JSON payload (`data`) returned by the FastAPI backend, with
the fields the transform reads. -/
structure RawData where
  status : Option String
  content : Option String
  static_url : Option String
  overlay_url : Option String
  geojson : Option RawGeoJson
  bounds : Option RawBounds
  use_tiles : Option JVal
  tile_config : Option RawTileConfig
  map_config : Option RawMapConfig
  thread_id : Option String
deriving DecidableEq, Repr

/-- `f.geometry?.coordinates?.[1]`. -/
def featLat (f : Option RawFeature) : Option JSNum :=
  ((f.bind RawFeature.geometry).bind RawGeometry.coordinates).bind
    (fun cs => (cs.get? 1).getD none)

/-- `f.geometry?.coordinates?.[0]`. -/
def featLng (f : Option RawFeature) : Option JSNum :=
  ((f.bind RawFeature.geometry).bind RawGeometry.coordinates).bind
    (fun cs => (cs.get? 0).getD none)

/-- `f.properties?.value`. -/
def featValue (f : Option RawFeature) : Option JSNum :=
  (f.bind RawFeature.properties).bind RawProps.value

/-- `typeof v === 'number' && isFinite(v)` on an optional slot. -/
def isFiniteNum : Option JSNum → Bool
  | some (.num _) => true
  | _ => false

/-- The feature filter of the `temperature_data` transform. -/
def keepFeature (f : Option RawFeature) : Bool :=
  (match f with
   | some ft => ft.geometry.isSome && ft.properties.isSome
   | none => false) &&
  isFiniteNum (featLat f) && isFiniteNum (featLng f) && isFiniteNum (featValue f)

/-- An element of the transformed `temperature_data` list. -/
structure TempPoint where
  latitude : JSNum
  longitude : JSNum
  value : JSNum
  «variable» : String
  unit : String
deriving DecidableEq, Repr

/-- The feature-to-point map of the `temperature_data` transform (the
mapped features have already passed the filter, so the slots are
present; a hypothetically absent slot is idealised as NaN). -/
def mapFeature (f : Option RawFeature) : TempPoint :=
  { latitude := (featLat f).getD .nan
    longitude := (featLng f).getD .nan
    value := (featValue f).getD .nan
    «variable» :=
      match (f.bind RawFeature.properties).bind RawProps.«variable» with
      | some s => if s ≠ "" then s else "temperature"
      | none => "temperature"
    unit :=
      match (f.bind RawFeature.properties).bind RawProps.unit with
      | some s => if s ≠ "" then s else "°C"
      | none => "°C" }

/-- `v || dflt` for an optional number slot. -/
def numOrDefault (v : Option JSNum) (dflt : ℚ) : JSNum :=
  match v with
  | some n => if jsTruthyN n then n else .num dflt
  | none => .num dflt

/-- Transformed `tile_config` (defaults filled in, `tile_list` passed
through). -/
structure TileConfigT where
  tile_url : Option String
  «variable» : Option String
  date : Option String
  min_zoom : JSNum
  max_zoom : JSNum
  tile_size : JSNum
  bounds_endpoint : Option String
  tile_list : Option (List (Option TileEntry))
  region_bounds : Option TileBoundsQ
  tile_count : Option JSNum
  color_scale : Option String
deriving DecidableEq, Repr

/-- General JS `+` on two numbers. -/
def jsAdd : JSNum → JSNum → JSNum
  | .nan, _ => .nan
  | _, .nan => .nan
  | .posinf, .neginf => .nan
  | .neginf, .posinf => .nan
  | .posinf, _ => .posinf
  | _, .posinf => .posinf
  | .neginf, _ => .neginf
  | _, .neginf => .neginf
  | .num a, .num b => .num (a + b)

/-- Transformed `map_config`. -/
structure MapConfigT where
  zoom : JSNum
  center : JSNum × JSNum
  style : String
  overlay_mode : Bool
deriving DecidableEq, Repr

/-- The transformed response object built by `callMultiAgentFunction`. -/
structure TransformedResponse where
  status : Option String
  content : Option String
  static_url : Option String
  overlay_url : Option String
  geojson : Option RawGeoJson
  bounds : Option RawBounds
  use_tiles : Bool
  tile_config : Option TileConfigT
  temperature_data : List TempPoint
  map_config : Option MapConfigT
  thread_id : Option String
deriving DecidableEq, Repr

/-- The `tile_config` field copy. -/
def transformTileConfig (tc : RawTileConfig) : TileConfigT :=
  { tile_url := tc.tile_url
    «variable» := tc.«variable»
    date := tc.date
    min_zoom := numOrDefault tc.min_zoom 3
    max_zoom := numOrDefault tc.max_zoom 10
    tile_size := numOrDefault tc.tile_size 256
    bounds_endpoint := tc.bounds_endpoint
    tile_list := tc.tile_list
    region_bounds := tc.region_bounds
    tile_count := tc.tile_count
    color_scale := tc.color_scale }

/-- Truthiness of `tile_config?.tile_url`. -/
def tileUrlTruthy (tc : Option TileConfigT) : Bool :=
  match tc with
  | some t => sTruthy t.tile_url
  | none => false

/-- The response transform of `callMultiAgentFunction`, including the
final guard that disables `use_tiles` when `tile_config` has no
truthy `tile_url`. -/
def transformResponse (d : RawData) : TransformedResponse :=
  let t : TransformedResponse :=
    { status := d.status
      content := d.content
      static_url := d.static_url
      overlay_url := d.overlay_url
      geojson := d.geojson
      bounds := d.bounds
      use_tiles := jTruthy d.use_tiles
      tile_config := d.tile_config.map transformTileConfig
      temperature_data :=
        match d.geojson with
        | some g =>
          match g.features with
          | some fs => (fs.filter keepFeature).map mapFeature
          | none => []
        | none => []
      map_config := d.bounds.map (fun b =>
        { zoom := numOrDefault (d.map_config.bind RawMapConfig.zoom) 6
          center := (jsDivC (jsAdd b.west b.east) 2, jsDivC (jsAdd b.north b.south) 2)
          style :=
            match d.map_config.bind RawMapConfig.style with
            | some s => if s ≠ "" then s else "satellite"
            | none => "satellite"
          overlay_mode := decide ((d.map_config.bind RawMapConfig.overlay_mode) ≠ some false) })
      thread_id := d.thread_id }
  if t.use_tiles && !(tileUrlTruthy t.tile_config) then { t with use_tiles := false }
  else t

/-! ### GeoTIFF overlay loader (`src/utils/geotiffLoader.ts`)

The external effects (script loading, `fetch`, GeoTIFF decoding, the
projection library, canvas rasterisation, map mutation) are modelled by
an environment recording each step's outcome; `Except` errors are the
JS exceptions the step may throw. -/

/-- The `fetch` response, as far as the loader inspects it. -/
structure FetchedResp where
  ok : Bool
deriving DecidableEq, Repr

/-- The parsed GeoTIFF image: dimensions and `getBoundingBox()` (which
may be `null`/`undefined` or of the wrong length). -/
structure ParsedImage where
  width : ℤ
  height : ℤ
  samplesPerPixel : ℤ
  boundingBox : Option (List JSNum)
deriving DecidableEq, Repr

/-- Environment of external outcomes for one `loadGeoTiffOverlay` call. -/
structure GeoEnv where
  loadLibsR : Except String Unit
  geotiffLib : Bool
  proj4Libs : Bool
  fetchR : Except String FetchedResp
  parseR : Except String ParsedImage
  projR : Except String (List JSNum × List JSNum)
  renderR : Except String String
  addBelowR : Except String Unit
  addTopR : Except String Unit
  setCameraR : Except String Unit

/-- The Azure Maps image layer the loader constructs. -/
structure ImageLayerModel where
  url : String
  coordinates : List (JSNum × JSNum)
  opacity : ℚ
deriving DecidableEq, Repr

/-- Step 5 of the loader: the WGS84 corner conversion.  With both
projection libraries present the converted corners are used, but a
projection failure is caught internally and falls back to the raw
bounds (split `[west, south]`/`[east, north]`); without the libraries
the raw bounds are used directly. -/
def projCorners (env : GeoEnv) (bs : List JSNum) : List JSNum × List JSNum :=
  let rawCorners :=
    ([bs.getD 0 .nan, bs.getD 1 .nan], [bs.getD 2 .nan, bs.getD 3 .nan])
  if env.proj4Libs then
    match env.projR with
    | .ok p => p
    | .error _ => rawCorners
  else rawCorners

/-- Steps 9 and 10 of the loader, after the layer was added: the camera
move; a throw there propagates to the outer catch with the layer
already on the map. -/
def geoAfterAdd (env : GeoEnv) (layer : ImageLayerModel) :
    Except String (Option ImageLayerModel) × List ImageLayerModel :=
  match env.setCameraR with
  | .error e => (.error e, [layer])
  | .ok _ => (.ok (some layer), [layer])

/-- The body of `loadGeoTiffOverlay` inside the outer `try`.  The first
component is the outcome (`.error` = an uncaught JS exception reaches
the outer catch); the second lists the layers added to the map. -/
def loadGeoTiffRun (env : GeoEnv) :
    Except String (Option ImageLayerModel) × List ImageLayerModel :=
  match env.loadLibsR with
  | .error e => (.error e, [])
  | .ok _ =>
    if !env.geotiffLib then (.ok none, [])
    else
      match env.fetchR with
      | .error e => (.error e, [])
      | .ok resp =>
        if !resp.ok then (.ok none, [])
        else
          match env.parseR with
          | .error e => (.error e, [])
          | .ok img =>
            match img.boundingBox with
            | none => (.ok none, [])
            | some bs =>
              if bs.length ≠ 4 then (.ok none, [])
              else
                let mm := projCorners env bs
                let minXY := mm.1
                let maxXY := mm.2
                if !(minXY.all jsIsFinite && maxXY.all jsIsFinite) then (.ok none, [])
                else
                  match env.renderR with
                  | .error e => (.error e, [])
                  | .ok png =>
                    let layer : ImageLayerModel :=
                      { url := png
                        coordinates :=
                          [(minXY.getD 0 .nan, maxXY.getD 1 .nan),
                           (maxXY.getD 0 .nan, maxXY.getD 1 .nan),
                           (maxXY.getD 0 .nan, minXY.getD 1 .nan),
                           (minXY.getD 0 .nan, minXY.getD 1 .nan)]
                        opacity := 0.75 }
                    match env.addBelowR with
                    | .ok _ => geoAfterAdd env layer
                    | .error _ =>
                      match env.addTopR with
                      | .error e => (.error e, [])
                      | .ok _ => geoAfterAdd env layer

/-- `loadGeoTiffOverlay`: the outer `try`/`catch` maps every uncaught
exception to a `null` result. -/
def loadGeoTiffOverlay (env : GeoEnv) :
    Option ImageLayerModel × List ImageLayerModel :=
  match loadGeoTiffRun env with
  | (.ok r, ls) => (r, ls)
  | (.error _, ls) => (none, ls)

/-! ### Chat submit error containment (`Chat.tsx`) -/

/-- A chat transcript entry. -/
structure ChatMessage where
  role : String
  text : String
deriving DecidableEq, Repr

/-- The assistant bubble built in the `catch` handler of the chat
submit (`err?.message || 'Backend connection error'`). -/
def chatCatchMessage (errMessage : Option String) : ChatMessage :=
  { role := "assistant"
    text := "Request failed: " ++
      (match errMessage with
       | some m => if m ≠ "" then m else "Backend connection error"
       | none => "Backend connection error") }

/-- The transcript update of one chat submit: a successful request
appends the assistant message built from the response, a thrown request
appends the catch handler's bubble. -/
def chatSubmitAppend (msgs : List ChatMessage)
    (outcome : Except (Option String) ChatMessage) : List ChatMessage :=
  match outcome with
  | .ok m => msgs ++ [m]
  | .error em => msgs ++ [chatCatchMessage em]

/-! ### Map view overlay decision (`AzureMapView.tsx`)

The `ready` handler derives flags from the loosely-typed
`mapData.azureData` payload and walks a priority chain:
tiles → PNG overlay → GeoJSON-only → nothing.  Before the chain,
`handleWeatherResponse` would add a native `TileLayer`, but only when
the Azure Maps SDK exposes `atlas.source.TileSource` and
`atlas.layer.TileLayer`; that capability is the `native` flag (the
repository's own `azure-maps-control` declarations expose neither). -/

/-- A bounds object in the loose payload (fields may be absent). -/
structure BoundsJ where
  north : Option JSNum
  south : Option JSNum
  east : Option JSNum
  west : Option JSNum
deriving DecidableEq, Repr

/-- `tile_config` as the map view reads it. -/
structure TileCfgA where
  tile_url : Option String
  tile_list : Option (List (Option TileEntry))
  «variable» : Option String
  min_zoom : Option JSNum
  max_zoom : Option JSNum
  tile_size : Option JSNum
  region_bounds : Option TileBoundsQ
deriving DecidableEq, Repr

/-- The `mapData.azureData` payload bag. -/
structure AzureDataA where
  use_tiles : Option JVal
  tile_config : Option TileCfgA
  overlay_url : Option String
  static_url : Option String
  geojson : Option RawGeoJson
  bounds : Option BoundsJ
deriving DecidableEq, Repr

/-- The inputs of the decision: `mapData.azureData` and
`mapData.bounds`. -/
structure MapViewInput where
  azureData : Option AzureDataA
  mapBounds : Option BoundsJ
deriving DecidableEq, Repr

/-- `useTiles = mapData.azureData?.use_tiles === true`. -/
def mvUseTiles (inp : MapViewInput) : Bool :=
  jStrictTrue (inp.azureData.bind AzureDataA.use_tiles)

/-- `tileConfig = mapData.azureData?.tile_config`. -/
def mvTileConfig (inp : MapViewInput) : Option TileCfgA :=
  inp.azureData.bind AzureDataA.tile_config

/-- `overlayUrl = mapData.azureData?.overlay_url`. -/
def mvOverlayUrl (inp : MapViewInput) : Option String :=
  inp.azureData.bind AzureDataA.overlay_url

/-- `staticUrl = mapData.azureData?.static_url`. -/
def mvStaticUrl (inp : MapViewInput) : Option String :=
  inp.azureData.bind AzureDataA.static_url

/-- `hasGeoJsonData = !!(azureData?.geojson?.features?.length > 0)`. -/
def mvHasGeoJson (inp : MapViewInput) : Bool :=
  match (inp.azureData.bind AzureDataA.geojson).bind RawGeoJson.features with
  | some fs => decide (0 < fs.length)
  | none => false

/-- `hasBounds = !!(azureData?.bounds || mapData.bounds)`. -/
def mvHasBounds (inp : MapViewInput) : Bool :=
  (inp.azureData.bind AzureDataA.bounds).isSome || inp.mapBounds.isSome

/-- One entry of the strict tile-list validation: a truthy object with
a string `url` starting `http`, truthy `bounds` and numeric `z/x/y`. -/
def validTileEntry : Option TileEntry → Bool
  | none => false
  | some t =>
    (match t.url with
     | some u => strStartsWith u "http"
     | none => false) &&
    t.bounds.isSome && t.z.isSome && t.x.isSome && t.y.isSome

/-- `hasValidTileList`: a non-empty array whose every entry passes. -/
def hasValidTileList (tc : TileCfgA) : Bool :=
  match tc.tile_list with
  | some l => decide (0 < l.length) && l.all validTileEntry
  | none => false

/-- `hasValidTilePattern`: the first tile's URL contains the decimal
renderings of its own `z`, `x` and `y` (only evaluated when the list
validation passed). -/
def hasValidTilePattern (tc : TileCfgA) : Bool :=
  if hasValidTileList tc then
    match tc.tile_list with
    | some l =>
      match l.headD none with
      | some t =>
        (match t.url, t.z, t.x, t.y with
         | some u, some z, some x, some y =>
           strIncludes u (jsNumToString z) && strIncludes u (jsNumToString x) &&
             strIncludes u (jsNumToString y)
         | _, _, _, _ => false)
      | none => false
    | none => false
  else false

/-- Condition of priority branch 1: `useTiles && tileConfig &&
tileConfig.tile_url`. -/
def cond1 (inp : MapViewInput) : Bool :=
  mvUseTiles inp &&
    (match mvTileConfig inp with
     | some tc => sTruthy tc.tile_url
     | none => false)

/-- Condition of priority branch 2: `(overlayUrl || staticUrl) &&
hasBounds && !useTiles`. -/
def cond2 (inp : MapViewInput) : Bool :=
  (sTruthy (mvOverlayUrl inp) || sTruthy (mvStaticUrl inp)) &&
    mvHasBounds inp && !(mvUseTiles inp)

/-- Condition of priority branch 3: `hasGeoJsonData && !useTiles &&
!overlayUrl && !staticUrl`. -/
def cond3 (inp : MapViewInput) : Bool :=
  mvHasGeoJson inp && !(mvUseTiles inp) && !(sTruthy (mvOverlayUrl inp)) &&
    !(sTruthy (mvStaticUrl inp))

/-- The four rendering strategies the chain reconciles into. -/
inductive Strategy where
  | tiles
  | png
  | geojsonOnly
  | noOverlay
deriving DecidableEq, Repr

/-- The strategy the chain selects: branch 1 renders the backend tile
list only when the strict validation passes (else nothing is
overlaid), branch 2 is the PNG overlay path, branch 3 hover markers
only, else no overlay. -/
def selectStrategy (inp : MapViewInput) : Strategy :=
  if cond1 inp then
    if (match mvTileConfig inp with
        | some tc => hasValidTileList tc && hasValidTilePattern tc
        | none => false) then .tiles
    else .noOverlay
  else if cond2 inp then .png
  else if cond3 inp then .geojsonOnly
  else .noOverlay

/-- The `isComparison` guard inside the PNG branch. -/
def isComparison (inp : MapViewInput) : Bool :=
  match mvStaticUrl inp with
  | some su =>
    su ≠ "" &&
      (strIncludes su "comparison" || strIncludes su "difference" ||
        strIncludes su "_vs_" || strIncludes su "time_series" ||
        strIncludes su "subplot")
  | none => false

/-- The component-level default CONUS bounds. -/
def defaultBoundsB : BoundsJ :=
  { north := some (.num 49), south := some (.num 25)
    east := some (.num (-66)), west := some (.num (-125)) }

/-- The overlay bounds used by `addPngOverlay`: backend bounds first,
then the `mapData` prop bounds, then the component defaults. -/
def chosenOverlayBounds (inp : MapViewInput) : BoundsJ :=
  match inp.azureData.bind AzureDataA.bounds with
  | some b => b
  | none =>
    match inp.mapBounds with
    | some b => b
    | none => defaultBoundsB

/-- The bounds validation of `addPngOverlay`: four finite fields with
`north > south` and `west < east`.  Absent fields behave like NaN in
`isFinite` and in the comparisons, exactly as `undefined` does in JS. -/
def validOverlayBounds (b : BoundsJ) : Bool :=
  let n := b.north.getD .nan
  let s := b.south.getD .nan
  let e := b.east.getD .nan
  let w := b.west.getD .nan
  jsIsFinite n && jsIsFinite s && jsIsFinite e && jsIsFinite w &&
    !(jsLe n s) && !(jsLe e w)

/-- `addPngOverlay`: choose `overlay_url || static_url`, validate the
URL and the bounds, and produce the ImageLayer (or nothing). -/
def addPngOverlayResult (inp : MapViewInput) : Option ImageLayerModel :=
  let overlayUrl := mvOverlayUrl inp
  let staticUrl := mvStaticUrl inp
  let imageUrl : Option String := if sTruthy overlayUrl then overlayUrl else staticUrl
  match imageUrl with
  | none => none
  | some u =>
    if u = "" || !(strStartsWith u "http") then none
    else
      let ob := chosenOverlayBounds inp
      let n := ob.north.getD .nan
      let s := ob.south.getD .nan
      let e := ob.east.getD .nan
      let w := ob.west.getD .nan
      if !(validOverlayBounds ob) then none
      else
        let isTransparentOverlay :=
          sTruthy overlayUrl || strIncludes u "overlay" || strIncludes u "transparent"
        some
          { url := u
            coordinates := [(w, n), (e, n), (e, s), (w, s)]
            opacity := if isTransparentOverlay then 0.8 else 0.6 }

/-- Kinds of overlay-rendering operations the handler can perform. -/
inductive OverlayKind where
  | nativeTile
  | backendTileList
  | pngImage
deriving DecidableEq, Repr

/-- `handleWeatherResponse`/`renderWithTiles` before the chain: with a
truthy `use_tiles`, a `tile_config` carrying a truthy `tile_url`, and
the native SDK classes available, a native `TileLayer` is added. -/
def prePassOverlays (native : Bool) (inp : MapViewInput) : List OverlayKind :=
  if jTruthy (inp.azureData.bind AzureDataA.use_tiles) &&
      (mvTileConfig inp).isSome &&
      (match mvTileConfig inp with
       | some tc => sTruthy tc.tile_url
       | none => false) &&
      native then [.nativeTile]
  else []

/-- Overlay operations performed by the priority chain itself. -/
def chainOverlays (inp : MapViewInput) : List OverlayKind :=
  if cond1 inp then
    match mvTileConfig inp with
    | some tc =>
      if hasValidTileList tc && hasValidTilePattern tc then [.backendTileList]
      else []
    | none => []
  else if cond2 inp then
    if isComparison inp then []
    else
      match addPngOverlayResult inp with
      | some _ => [.pngImage]
      | none => []
  else []

/-- All overlay operations of one `ready` handler run. -/
def appliedOverlays (native : Bool) (inp : MapViewInput) : List OverlayKind :=
  prePassOverlays native inp ++ chainOverlays inp

/-! ### Spec-side decision table (for the refinement claim C1)

The following three conditions transcribe the claim's wording, to be
compared with the code-side `selectStrategy`. -/

/-- Spec condition (1): `use_tiles` strictly true and `tile_config`
with a `tile_url` and a validated `tile_list`. -/
def claimedTilesCond (inp : MapViewInput) : Bool :=
  jStrictTrue (inp.azureData.bind AzureDataA.use_tiles) &&
    (match mvTileConfig inp with
     | some tc => sTruthy tc.tile_url && hasValidTileList tc && hasValidTilePattern tc
     | none => false)

/-- Spec condition (2): `use_tiles` not true, and an `overlay_url` or
`static_url` plus bounds present. -/
def claimedPngCond (inp : MapViewInput) : Bool :=
  !(jStrictTrue (inp.azureData.bind AzureDataA.use_tiles)) &&
    (sTruthy (mvOverlayUrl inp) || sTruthy (mvStaticUrl inp)) && mvHasBounds inp

/-- Spec condition (3): only GeoJSON features are present. -/
def claimedGeoCond (inp : MapViewInput) : Bool :=
  mvHasGeoJson inp && !(jStrictTrue (inp.azureData.bind AzureDataA.use_tiles)) &&
    !(sTruthy (mvOverlayUrl inp)) && !(sTruthy (mvStaticUrl inp))

/-- The decision table as the spec states it. -/
def claimedStrategy (inp : MapViewInput) : Strategy :=
  if claimedTilesCond inp then .tiles
  else if claimedPngCond inp then .png
  else if claimedGeoCond inp then .geojsonOnly
  else .noOverlay

/-! ## Theorems -/

/-! ### C3 — the chat request shape -/

/-- C3 counterexample: a concrete chat request (the dark-chat client
passes `thread_id` inside `requestData`, modelled by the object input)
has no `thread_id` field in its JSON body, contradicting the claim
that every request body carries `query`, `user_id` and `thread_id`. -/
theorem C3_counterexample :
    ¬ ("thread_id" ∈
      (buildChatRequest (.obj (some "show temperature") none) "user-1").body.map
        Prod.fst) := by
  decide

/-- C3 (amended): every chat request the client sends is a POST to the
chat endpoint whose JSON body has exactly the fields `query` and
`user_id`; no `thread_id` is included. -/
theorem C3_chat_request_shape (requestData : ReqInput) (userId : String) :
    (buildChatRequest requestData userId).method = "POST" ∧
    (buildChatRequest requestData userId).url = API_BASE_URL ++ "/api/chat" ∧
    (buildChatRequest requestData userId).body.map Prod.fst = ["query", "user_id"] :=
  ⟨rfl, rfl, rfl⟩

/-! ### C8 — the `use_tiles`/`tile_config` invariant -/

/-- The transform's final `use_tiles` equals the raw truthiness guarded
by the presence of a truthy `tile_config.tile_url`. -/
theorem transform_use_tiles (d : RawData) :
    (transformResponse d).use_tiles =
      (jTruthy d.use_tiles && tileUrlTruthy (d.tile_config.map transformTileConfig)) := by
  unfold transformResponse
  by_cases h1 : jTruthy d.use_tiles <;>
    by_cases h2 : tileUrlTruthy (d.tile_config.map transformTileConfig) <;>
      simp [h1, h2]

/-- The transform copies `tile_config` independently of the guard. -/
theorem transform_tile_config (d : RawData) :
    (transformResponse d).tile_config = d.tile_config.map transformTileConfig := by
  unfold transformResponse
  by_cases h1 : jTruthy d.use_tiles <;>
    by_cases h2 : tileUrlTruthy (d.tile_config.map transformTileConfig) <;>
      simp [h1, h2]

/-- C8: after the transform, `use_tiles = true` implies a present
`tile_config` whose `tile_url` is truthy; and a payload with truthy
`use_tiles` but no truthy `tile_config.tile_url` has `use_tiles`
forced to `false`. -/
theorem C8_use_tiles_invariant (d : RawData) :
    ((transformResponse d).use_tiles = true →
      ∃ tc, (transformResponse d).tile_config = some tc ∧ sTruthy tc.tile_url = true) ∧
    (jTruthy d.use_tiles = true →
      (∀ rtc, d.tile_config = some rtc → sTruthy rtc.tile_url = false) →
      (transformResponse d).use_tiles = false) := by
  constructor
  · intro h
    rw [transform_use_tiles] at h
    have h2 : tileUrlTruthy (d.tile_config.map transformTileConfig) = true := by
      simp only [Bool.and_eq_true] at h
      exact h.2
    cases hd : d.tile_config with
    | none => rw [hd] at h2; exact absurd h2 (by simp [tileUrlTruthy])
    | some rtc =>
      refine ⟨transformTileConfig rtc, ?_, ?_⟩
      · rw [transform_tile_config, hd]; rfl
      · rw [hd] at h2; exact h2
  · intro h1 h2
    rw [transform_use_tiles]
    have h3 : tileUrlTruthy (d.tile_config.map transformTileConfig) = false := by
      cases hd : d.tile_config with
      | none => rfl
      | some rtc =>
        have := h2 rtc hd
        simp [tileUrlTruthy, transformTileConfig, this]
    simp [h3]

/-- A raw payload switching on tiles with a well-formed `tile_config`. -/
def sampleTileConfigRaw : RawTileConfig :=
  { tile_url := some "http://tiles.example.com/{z}/{x}/{y}.png"
    «variable» := some "Tair"
    date := some "2024-01-01"
    min_zoom := none, max_zoom := none, tile_size := none
    bounds_endpoint := none, tile_list := none, region_bounds := none
    tile_count := none, color_scale := none }

/-- A raw payload with truthy `use_tiles` and a usable `tile_config`. -/
def sampleRawWithTiles : RawData :=
  { status := some "success", content := some "ok"
    static_url := none, overlay_url := none, geojson := none, bounds := none
    use_tiles := some (.vbool true), tile_config := some sampleTileConfigRaw
    map_config := none, thread_id := none }

/-- The same payload with `use_tiles` set but no `tile_config`. -/
def sampleRawBadTiles : RawData := { sampleRawWithTiles with tile_config := none }

/-- C8 witness: both invariant parts evaluated on concrete payloads. -/
theorem C8_witness :
    (∃ tc, (transformResponse sampleRawWithTiles).tile_config = some tc ∧
      sTruthy tc.tile_url = true) ∧
    (transformResponse sampleRawBadTiles).use_tiles = false :=
  ⟨(C8_use_tiles_invariant sampleRawWithTiles).1 (by decide),
   (C8_use_tiles_invariant sampleRawBadTiles).2 (by decide)
     (by intro rtc h; simp [sampleRawBadTiles, sampleRawWithTiles] at h)⟩

/-! ### C9 — sanitised `temperature_data` -/

/-- The transform's `temperature_data` unfolded. -/
theorem transform_temperature_data (d : RawData) :
    (transformResponse d).temperature_data =
      (match d.geojson with
       | some g =>
         match g.features with
         | some fs => (fs.filter keepFeature).map mapFeature
         | none => []
       | none => []) := by
  unfold transformResponse
  by_cases h1 : jTruthy d.use_tiles <;>
    by_cases h2 : tileUrlTruthy (d.tile_config.map transformTileConfig) <;>
      simp [h1, h2]

/-- A slot that passed the numeric-finiteness test holds a finite
number. -/
theorem isFiniteNum_exists {o : Option JSNum} (h : isFiniteNum o = true) :
    ∃ a : ℚ, o = some (.num a) := by
  cases o with
  | none => exact absurd h (by simp [isFiniteNum])
  | some v =>
    cases v with
    | nan => exact absurd h (by simp [isFiniteNum])
    | posinf => exact absurd h (by simp [isFiniteNum])
    | neginf => exact absurd h (by simp [isFiniteNum])
    | num q => exact ⟨q, rfl⟩

/-- C9: every transformed `temperature_data` point has finite numeric
latitude, longitude and value; and a payload without GeoJSON features
yields the empty list. -/
theorem C9_temperature_data_finite (d : RawData) :
    (∀ p ∈ (transformResponse d).temperature_data,
      (∃ a : ℚ, p.latitude = .num a) ∧ (∃ b : ℚ, p.longitude = .num b) ∧
        (∃ c : ℚ, p.value = .num c)) ∧
    (d.geojson.bind RawGeoJson.features = none →
      (transformResponse d).temperature_data = []) := by
  constructor
  · intro p hp
    rw [transform_temperature_data] at hp
    cases hg : d.geojson with
    | none => rw [hg] at hp; simp at hp
    | some g =>
      simp only [hg] at hp
      cases hf : g.features with
      | none => simp only [hf] at hp; simp at hp
      | some fs =>
        simp only [hf] at hp
        simp only [List.mem_map] at hp
        obtain ⟨f, hfm, hpf⟩ := hp
        have hk : keepFeature f = true := (List.mem_filter.mp hfm).2
        unfold keepFeature at hk
        simp only [Bool.and_eq_true] at hk
        obtain ⟨⟨⟨-, hlat⟩, hlng⟩, hval⟩ := hk
        obtain ⟨a, ha⟩ := isFiniteNum_exists hlat
        obtain ⟨b, hb⟩ := isFiniteNum_exists hlng
        obtain ⟨c, hc⟩ := isFiniteNum_exists hval
        subst hpf
        exact ⟨⟨a, by simp [mapFeature, ha]⟩, ⟨b, by simp [mapFeature, hb]⟩,
          ⟨c, by simp [mapFeature, hc]⟩⟩
  · intro h
    rw [transform_temperature_data]
    cases hg : d.geojson with
    | none => simp
    | some g =>
      have hf : g.features = none := by rw [hg] at h; simpa using h
      simp [hf]

/-- A feature with finite coordinates and value. -/
def sampleFeatureGood : RawFeature :=
  { geometry := some { coordinates := some [some (.num (-100)), some (.num 38)] }
    properties := some
      { value := some (.num 25), «variable» := some "Tair", unit := some "K" } }

/-- A feature with a NaN latitude (to be filtered out). -/
def sampleFeatureBad : RawFeature :=
  { geometry := some { coordinates := some [some (.num (-100)), some .nan] }
    properties := some { value := some (.num 1), «variable» := none, unit := none } }

/-- A raw payload carrying one valid and one invalid feature plus a
falsy list slot. -/
def sampleRawGeo : RawData :=
  { status := some "success", content := none, static_url := none, overlay_url := none
    geojson := some { features := some [some sampleFeatureGood, some sampleFeatureBad, none] }
    bounds := none, use_tiles := none, tile_config := none, map_config := none
    thread_id := none }

/-- The same payload without GeoJSON. -/
def sampleRawNoGeo : RawData := { sampleRawGeo with geojson := none }

/-- C9 witness: the surviving point of a concrete payload is finite in
all three slots, and a payload without features yields `[]`. -/
theorem C9_witness :
    ((∃ a : ℚ, (mapFeature (some sampleFeatureGood)).latitude = .num a) ∧
      (∃ b : ℚ, (mapFeature (some sampleFeatureGood)).longitude = .num b) ∧
      (∃ c : ℚ, (mapFeature (some sampleFeatureGood)).value = .num c)) ∧
    (transformResponse sampleRawNoGeo).temperature_data = [] :=
  ⟨(C9_temperature_data_finite sampleRawGeo).1 (mapFeature (some sampleFeatureGood))
      (by
        have h : (transformResponse sampleRawGeo).temperature_data =
            [mapFeature (some sampleFeatureGood)] := by
          rw [transform_temperature_data]
          rfl
        rw [h]
        exact List.mem_singleton.mpr rfl),
   (C9_temperature_data_finite sampleRawNoGeo).2 rfl⟩

/-! ### C7 — the stable user identifier -/

/-- `getStableUserId` in closed form: the auth branch is dead, so the
call is a truthiness test on the stored value. -/
theorem getStableUserId_eq (rnd : ℕ → Fin 16) (he : String → String) (s : Storage) :
    getStableUserId rnd he s =
      if sTruthy (s STORAGE_KEY) then ((s STORAGE_KEY).getD "", s)
      else (generateUUID rnd, setItem STORAGE_KEY (generateUUID rnd) s) := rfl

/-- The generated identifier always has the 36-character UUID shape. -/
theorem generateUUID_length (rnd : ℕ → Fin 16) : (generateUUID rnd).length = 36 := rfl

/-- The generated identifier is never the empty string. -/
theorem generateUUID_ne_empty (rnd : ℕ → Fin 16) : generateUUID rnd ≠ "" := by
  intro h
  have h2 : (generateUUID rnd).length = 0 := by rw [h]; rfl
  rw [generateUUID_length] at h2
  exact absurd h2 (by decide)

/-- The `y` slot digit is always one of `8`, `9`, `a`, `b`. -/
theorem uuid_y_digit : ∀ k : Fin 16, hexDigit ((k.val &&& 3) ||| 8) ∈ ['8', '9', 'a', 'b'] := by
  decide

/-- C7 (amended): with no authenticated user, `getStableUserId` writes
no key other than `'hydrology_copilot_user_id'`, its result depends
only on that key, a stored non-empty value is returned with storage
untouched, an absent or empty value is replaced by a fresh UUID v4
(dashes at 8/13/18/23, `'4'` at 14, one of `8/9/a/b` at 19) stored
under the key, and a second call returns the same identifier leaving
storage unchanged. -/
theorem C7_stable_user_id (rnd rnd2 : ℕ → Fin 16) (he he2 : String → String)
    (s : Storage) :
    (∀ k, k ≠ STORAGE_KEY → (getStableUserId rnd he s).2 k = s k) ∧
    (∀ t : Storage, s STORAGE_KEY = t STORAGE_KEY →
      (getStableUserId rnd he s).1 = (getStableUserId rnd he t).1) ∧
    (∀ v, s STORAGE_KEY = some v → v ≠ "" → getStableUserId rnd he s = (v, s)) ∧
    ((s STORAGE_KEY = none ∨ s STORAGE_KEY = some "") →
      (getStableUserId rnd he s).1 = generateUUID rnd ∧
      (getStableUserId rnd he s).2 STORAGE_KEY = some (generateUUID rnd)) ∧
    ((generateUUID rnd).length = 36 ∧
      (generateUUID rnd).data.get? 8 = some '-' ∧
      (generateUUID rnd).data.get? 13 = some '-' ∧
      (generateUUID rnd).data.get? 18 = some '-' ∧
      (generateUUID rnd).data.get? 23 = some '-' ∧
      (generateUUID rnd).data.get? 14 = some '4' ∧
      ∃ c, (generateUUID rnd).data.get? 19 = some c ∧ c ∈ ['8', '9', 'a', 'b']) ∧
    ((getStableUserId rnd2 he2 (getStableUserId rnd he s).2).1 =
        (getStableUserId rnd he s).1 ∧
      ∀ k, (getStableUserId rnd2 he2 (getStableUserId rnd he s).2).2 k =
        (getStableUserId rnd he s).2 k) := by
  refine ⟨?_, ?_, ?_, ?_, ?_, ?_⟩
  · intro k hk
    rw [getStableUserId_eq]
    cases hst : sTruthy (s STORAGE_KEY) with
    | true => simp
    | false => simp [setItem, hk]
  · intro t ht
    rw [getStableUserId_eq, getStableUserId_eq, ht]
    cases hst : sTruthy (t STORAGE_KEY) <;> simp [hst]
  · intro v hv hne
    rw [getStableUserId_eq, hv]
    simp [sTruthy, hne]
  · intro h
    have hst : sTruthy (s STORAGE_KEY) = false := by
      cases h with
      | inl h0 => rw [h0]; rfl
      | inr h0 => rw [h0]; rfl
    rw [getStableUserId_eq, hst]
    simp [setItem]
  · exact ⟨generateUUID_length rnd, rfl, rfl, rfl, rfl, rfl,
      ⟨hexDigit (((rnd 15).val &&& 3) ||| 8), rfl, uuid_y_digit (rnd 15)⟩⟩
  · cases hst : sTruthy (s STORAGE_KEY) with
    | true =>
      have h1 : getStableUserId rnd he s = ((s STORAGE_KEY).getD "", s) := by
        rw [getStableUserId_eq, hst]; simp
      have h2 : getStableUserId rnd2 he2 s = ((s STORAGE_KEY).getD "", s) := by
        rw [getStableUserId_eq, hst]; simp
      rw [h1]
      dsimp only
      rw [h2]
      exact ⟨rfl, fun k => rfl⟩
    | false =>
      have h1 : getStableUserId rnd he s =
          (generateUUID rnd, setItem STORAGE_KEY (generateUUID rnd) s) := by
        rw [getStableUserId_eq, hst]; simp
      have hkey : setItem STORAGE_KEY (generateUUID rnd) s STORAGE_KEY =
          some (generateUUID rnd) := by simp [setItem]
      have hst2 : sTruthy (setItem STORAGE_KEY (generateUUID rnd) s STORAGE_KEY) = true := by
        rw [hkey]
        simp [sTruthy, generateUUID_ne_empty rnd]
      have h2 : getStableUserId rnd2 he2 (setItem STORAGE_KEY (generateUUID rnd) s) =
          ((setItem STORAGE_KEY (generateUUID rnd) s STORAGE_KEY).getD "",
            setItem STORAGE_KEY (generateUUID rnd) s) := by
        rw [getStableUserId_eq, hst2]; simp
      rw [h1]
      dsimp only
      rw [h2, hkey]
      exact ⟨by simp, fun k => rfl⟩

/-- A deterministic digit stream (all zeros). -/
def rndZero : ℕ → Fin 16 := fun _ => 0

/-- C7 counterexample: with the key holding the (falsy) empty string,
the call does not return that stored value unchanged — it regenerates,
refuting the claim's unconditional "if the key holds a value it
returns that value unchanged". -/
theorem C7_counterexample :
    (getStableUserId rndZero (fun e => e)
        (setItem STORAGE_KEY "" (fun _ => none))).1 ≠ "" := by
  decide

/-- A storage with a non-empty stored identifier. -/
def storedState : Storage := setItem STORAGE_KEY "user-abc" (fun _ => none)

/-- C7 witness: a stored non-empty identifier is returned unchanged
with the storage untouched. -/
theorem C7_witness :
    getStableUserId rndZero (fun e => e) storedState = ("user-abc", storedState) :=
  (C7_stable_user_id rndZero rndZero (fun e => e) (fun e => e) storedState).2.2.1
    "user-abc" (by decide) (by decide)

/-! ### C2 — the static-image PNG overlay -/

/-- A payload with `use_tiles = false` and a `static_url` but no
bounds anywhere. -/
def c2NoBounds : MapViewInput :=
  { azureData := some
      { use_tiles := some (.vbool false), tile_config := none, overlay_url := none
        static_url := some "http://example.com/visualizations/map.png"
        geojson := none, bounds := none }
    mapBounds := none }

/-- C2 counterexample: `use_tiles` is false and a `static_url` is
present, yet no ImageLayer is added — the PNG branch also requires
bounds, so the claim as stated fails. -/
theorem C2_counterexample :
    mvUseTiles c2NoBounds = false ∧ sTruthy (mvStaticUrl c2NoBounds) = true ∧
    selectStrategy c2NoBounds = .noOverlay ∧ appliedOverlays false c2NoBounds = [] := by
  decide

/-- C2 (amended): when `use_tiles` is not strictly true, a `static_url`
starting with `http` is present, no truthy `overlay_url` shadows it,
the URL is not a comparison/time-series visualization, bounds are
available and valid, the map view takes the PNG overlay path and adds
exactly one ImageLayer whose URL is the static image. -/
theorem C2_static_url_overlay (inp : MapViewInput) (u : String)
    (h1 : mvUseTiles inp = false)
    (h2 : mvStaticUrl inp = some u)
    (h3 : strStartsWith u "http" = true)
    (h4 : sTruthy (mvOverlayUrl inp) = false)
    (h5 : isComparison inp = false)
    (h6 : mvHasBounds inp = true)
    (h7 : validOverlayBounds (chosenOverlayBounds inp) = true) :
    selectStrategy inp = .png ∧
    (∃ L, addPngOverlayResult inp = some L ∧ L.url = u) ∧
    appliedOverlays false inp = [.pngImage] := by
  have hu : u ≠ "" := by
    intro h
    subst h
    exact absurd h3 (by decide)
  have hst : sTruthy (mvStaticUrl inp) = true := by rw [h2]; simp [sTruthy, hu]
  have hc1 : cond1 inp = false := by simp [cond1, h1]
  have hc2 : cond2 inp = true := by simp [cond2, h4, hst, h6, h1]
  have hpng : addPngOverlayResult inp =
      some { url := u
             coordinates :=
               [((chosenOverlayBounds inp).west.getD .nan,
                 (chosenOverlayBounds inp).north.getD .nan),
                ((chosenOverlayBounds inp).east.getD .nan,
                 (chosenOverlayBounds inp).north.getD .nan),
                ((chosenOverlayBounds inp).east.getD .nan,
                 (chosenOverlayBounds inp).south.getD .nan),
                ((chosenOverlayBounds inp).west.getD .nan,
                 (chosenOverlayBounds inp).south.getD .nan)]
             opacity :=
               if sTruthy (mvOverlayUrl inp) || strIncludes u "overlay" ||
                   strIncludes u "transparent" then 0.8 else 0.6 } := by
    unfold addPngOverlayResult
    rw [h2]
    simp [h4, hu, h3, h7]
  refine ⟨?_, ⟨_, hpng, rfl⟩, ?_⟩
  · simp [selectStrategy, hc1, hc2]
  · simp [appliedOverlays, prePassOverlays, chainOverlays, hc1, hc2, h5, hpng]

/-- A payload with `use_tiles = false`, a `static_url` and valid
backend bounds. -/
def c2GoodInput : MapViewInput :=
  { azureData := some
      { use_tiles := some (.vbool false), tile_config := none, overlay_url := none
        static_url := some "http://example.com/spi_map.png"
        geojson := none
        bounds := some
          { north := some (.num 49), south := some (.num 25)
            east := some (.num (-66)), west := some (.num (-125)) } }
    mapBounds := none }

/-- C2 witness: the concrete static-image payload takes the PNG path
and yields exactly one ImageLayer for the static image. -/
theorem C2_witness :
    selectStrategy c2GoodInput = .png ∧
    (∃ L, addPngOverlayResult c2GoodInput = some L ∧
      L.url = "http://example.com/spi_map.png") ∧
    appliedOverlays false c2GoodInput = [.pngImage] :=
  C2_static_url_overlay c2GoodInput "http://example.com/spi_map.png"
    (by decide) (by decide) (by decide) (by decide) (by decide) (by decide) (by decide)

/-! ### C1 — one rendering decision per response -/

/-- The inner validation of branch 1, as a single flag. -/
def tcValid (inp : MapViewInput) : Bool :=
  match mvTileConfig inp with
  | some tc => hasValidTileList tc && hasValidTilePattern tc
  | none => false

/-- The spec's tile condition splits into the code's branch-1 guard and
the inner validation. -/
theorem claimedTiles_eq (inp : MapViewInput) :
    claimedTilesCond inp = (cond1 inp && tcValid inp) := by
  unfold claimedTilesCond cond1 tcValid mvUseTiles
  cases htc : mvTileConfig inp with
  | none => simp
  | some tc =>
    by_cases hu : jStrictTrue (inp.azureData.bind AzureDataA.use_tiles) = true <;>
      by_cases hs : sTruthy tc.tile_url = true <;> simp [hu, hs, Bool.and_assoc]

/-- The spec's PNG condition is the code's branch-2 condition. -/
theorem claimedPng_eq (inp : MapViewInput) : claimedPngCond inp = cond2 inp := by
  unfold claimedPngCond cond2 mvUseTiles
  by_cases hu : jStrictTrue (inp.azureData.bind AzureDataA.use_tiles) = true <;>
    by_cases ho : sTruthy (mvOverlayUrl inp) = true <;>
    by_cases ht : sTruthy (mvStaticUrl inp) = true <;>
    by_cases hb : mvHasBounds inp = true <;> simp [hu, ho, ht, hb]

/-- The spec's GeoJSON-only condition is the code's branch-3 condition. -/
theorem claimedGeo_eq (inp : MapViewInput) : claimedGeoCond inp = cond3 inp := by
  unfold claimedGeoCond cond3 mvUseTiles
  by_cases hu : jStrictTrue (inp.azureData.bind AzureDataA.use_tiles) = true <;>
    by_cases ho : sTruthy (mvOverlayUrl inp) = true <;>
    by_cases ht : sTruthy (mvStaticUrl inp) = true <;>
    by_cases hg : mvHasGeoJson inp = true <;> simp [hu, ho, ht, hg]

/-- Branch 1 excludes branch 2 (`use_tiles` appears positively in one
and negated in the other). -/
theorem cond12_excl (inp : MapViewInput) (h : cond1 inp = true) : cond2 inp = false := by
  unfold cond1 at h
  simp only [Bool.and_eq_true] at h
  unfold cond2
  simp [h.1]

/-- Branch 1 excludes branch 3. -/
theorem cond13_excl (inp : MapViewInput) (h : cond1 inp = true) : cond3 inp = false := by
  unfold cond1 at h
  simp only [Bool.and_eq_true] at h
  unfold cond3
  simp [h.1]

/-- Branch 2 excludes branch 3 (an overlay or static URL is present in
one and absent in the other). -/
theorem cond23_excl (inp : MapViewInput) (h : cond2 inp = true) : cond3 inp = false := by
  unfold cond2 at h
  simp only [Bool.and_eq_true, Bool.or_eq_true] at h
  unfold cond3
  rcases h.1.1 with ho | ht
  · simp [ho]
  · simp [ht]

/-- With no native tile support, the pre-pass adds nothing. -/
theorem prePass_false (inp : MapViewInput) : prePassOverlays false inp = [] := by
  simp [prePassOverlays]

/-- With no native tile support, the applied overlays are the chain's. -/
theorem applied_false (inp : MapViewInput) :
    appliedOverlays false inp = chainOverlays inp := by
  simp [appliedOverlays, prePass_false]

/-- Inversion: the chain selects the tile strategy exactly under the
branch-1 guard plus validation. -/
theorem select_tiles_iff (inp : MapViewInput) :
    selectStrategy inp = .tiles ↔ (cond1 inp = true ∧ tcValid inp = true) := by
  unfold selectStrategy tcValid
  by_cases h1 : cond1 inp = true <;>
    by_cases hv : (match mvTileConfig inp with
      | some tc => hasValidTileList tc && hasValidTilePattern tc
      | none => false) = true <;>
    by_cases h2 : cond2 inp = true <;> by_cases h3 : cond3 inp = true <;>
      simp [h1, hv, h2, h3]

/-- Inversion: the chain selects the PNG strategy exactly when branch 1
fails and branch 2 holds. -/
theorem select_png_iff (inp : MapViewInput) :
    selectStrategy inp = .png ↔ (cond1 inp = false ∧ cond2 inp = true) := by
  unfold selectStrategy
  by_cases h1 : cond1 inp = true <;>
    by_cases hv : (match mvTileConfig inp with
      | some tc => hasValidTileList tc && hasValidTilePattern tc
      | none => false) = true <;>
    by_cases h2 : cond2 inp = true <;> by_cases h3 : cond3 inp = true <;>
      simp [h1, hv, h2, h3]

/-- C1: the priority chain realises the spec's decision table (with the
native `TileLayer` pre-pass inert, as the consumed SDK exposes no
`source.TileSource`): the code's selection equals the spec's, the
spec's three positive conditions are pairwise exclusive, and at most
one overlay operation — of the kind the selected strategy prescribes —
is applied per response. -/
theorem C1_overlay_decision (inp : MapViewInput) (native : Bool) (hn : native = false) :
    selectStrategy inp = claimedStrategy inp ∧
    (claimedTilesCond inp = true → claimedPngCond inp = false ∧ claimedGeoCond inp = false) ∧
    (claimedPngCond inp = true → claimedTilesCond inp = false ∧ claimedGeoCond inp = false) ∧
    (claimedGeoCond inp = true → claimedTilesCond inp = false ∧ claimedPngCond inp = false) ∧
    (appliedOverlays native inp = [] ∨ ∃ k, appliedOverlays native inp = [k]) ∧
    (selectStrategy inp = .tiles → appliedOverlays native inp = [.backendTileList]) ∧
    (selectStrategy inp = .png →
      appliedOverlays native inp = [] ∨ appliedOverlays native inp = [.pngImage]) ∧
    (selectStrategy inp = .geojsonOnly ∨ selectStrategy inp = .noOverlay →
      appliedOverlays native inp = []) := by
  subst hn
  refine ⟨?_, ?_, ?_, ?_, ?_, ?_, ?_, ?_⟩
  · -- the code's chain equals the spec's decision table
    unfold selectStrategy claimedStrategy
    rw [claimedTiles_eq, claimedPng_eq, claimedGeo_eq]
    by_cases h1 : cond1 inp = true
    · have e2 := cond12_excl inp h1
      have e3 := cond13_excl inp h1
      by_cases hv : (match mvTileConfig inp with
        | some tc => hasValidTileList tc && hasValidTilePattern tc
        | none => false) = true <;>
          simp [h1, hv, e2, e3, tcValid]
    · by_cases h2 : cond2 inp = true <;> by_cases h3 : cond3 inp = true <;>
        simp [h1, h2, h3, tcValid]
  · intro h
    rw [claimedTiles_eq] at h
    simp only [Bool.and_eq_true] at h
    rw [claimedPng_eq, claimedGeo_eq]
    exact ⟨cond12_excl inp h.1, cond13_excl inp h.1⟩
  · intro h
    rw [claimedPng_eq] at h
    rw [claimedTiles_eq, claimedGeo_eq]
    constructor
    · cases h1 : cond1 inp with
      | false => simp
      | true => rw [cond12_excl inp h1] at h; exact absurd h (by simp)
    · exact cond23_excl inp h
  · intro h
    rw [claimedGeo_eq] at h
    rw [claimedTiles_eq, claimedPng_eq]
    constructor
    · cases h1 : cond1 inp with
      | false => simp
      | true => rw [cond13_excl inp h1] at h; exact absurd h (by simp)
    · cases h2 : cond2 inp with
      | false => rfl
      | true => rw [cond23_excl inp h2] at h; exact absurd h (by simp)
  · -- at most one overlay operation
    rw [applied_false]
    unfold chainOverlays
    by_cases h1 : cond1 inp = true
    · cases htc : mvTileConfig inp with
      | none => exact Or.inl (by simp [h1, htc])
      | some tc =>
        by_cases hv : (hasValidTileList tc && hasValidTilePattern tc) = true
        · exact Or.inr ⟨.backendTileList, by simp [h1, htc, hv]⟩
        · exact Or.inl (by simp [h1, htc, hv])
    · by_cases h2 : cond2 inp = true
      · by_cases hic : isComparison inp = true
        · exact Or.inl (by simp [h1, h2, hic])
        · cases hr : addPngOverlayResult inp with
          | none => exact Or.inl (by simp [h1, h2, hic, hr])
          | some L => exact Or.inr ⟨.pngImage, by simp [h1, h2, hic, hr]⟩
      · exact Or.inl (by simp [h1, h2])
  · intro h
    obtain ⟨h1, hv⟩ := (select_tiles_iff inp).mp h
    rw [applied_false]
    unfold chainOverlays
    unfold tcValid at hv
    cases htc : mvTileConfig inp with
    | none => simp only [htc] at hv; exact absurd hv (by simp)
    | some tc =>
      simp only [htc] at hv
      simp only [Bool.and_eq_true] at hv
      simp [h1, htc, hv.1, hv.2]
  · intro h
    obtain ⟨h1, h2⟩ := (select_png_iff inp).mp h
    rw [applied_false]
    unfold chainOverlays
    by_cases hic : isComparison inp = true
    · exact Or.inl (by simp [h1, h2, hic])
    · cases hr : addPngOverlayResult inp with
      | none => exact Or.inl (by simp [h1, h2, hic, hr])
      | some L => exact Or.inr (by simp [h1, h2, hic, hr])
  · intro h
    rw [applied_false]
    unfold chainOverlays
    by_cases h1 : cond1 inp = true
    · cases htc : mvTileConfig inp with
      | none => simp [h1, htc]
      | some tc =>
        by_cases hv : (hasValidTileList tc && hasValidTilePattern tc) = true
        · exfalso
          have : selectStrategy inp = .tiles :=
            (select_tiles_iff inp).mpr ⟨h1, by rw [tcValid, htc]; exact hv⟩
          rw [this] at h
          simp at h
        · simp [h1, htc, hv]
    · by_cases h2 : cond2 inp = true
      · exfalso
        have : selectStrategy inp = .png := (select_png_iff inp).mpr ⟨by simp [h1], h2⟩
        rw [this] at h
        simp at h
      · simp [h1, h2]

/-- A validated backend tile-list payload. -/
def c1TilesInput : MapViewInput :=
  { azureData := some
      { use_tiles := some (.vbool true)
        tile_config := some
          { tile_url := some "http://tiles.example.com/{z}/{x}/{y}.png"
            tile_list := some [some
              { url := some "http://tiles.example.com/6/10/24.png"
                bounds := some
                  { north := .num 40, south := .num 35
                    east := .num (-80), west := .num (-85) }
                z := some (.num 6), x := some (.num 10), y := some (.num 24) }]
            «variable» := some "Tair", min_zoom := none, max_zoom := none
            tile_size := none, region_bounds := none }
        overlay_url := none, static_url := none, geojson := none, bounds := none }
    mapBounds := none }

/-- C1 witness: on a concrete validated tile payload the chain applies
exactly the backend tile-list rendering. -/
theorem C1_witness : appliedOverlays false c1TilesInput = [.backendTileList] :=
  (C1_overlay_decision c1TilesInput false rfl).2.2.2.2.2.1 (by decide)

/-! ### C4 — error containment of the GeoTIFF loader and the chat -/

/-- C4: `loadGeoTiffOverlay` never lets an exception escape — any
uncaught throw of the body becomes a `null` result — and every listed
failure mode (throwing library load, missing GeoTIFF library, thrown
or non-ok fetch, absent or wrongly-sized bounding box, non-finite
projected corners, a throw while decoding/rasterising) returns `null`
with no layer added to the map; a failed chat request appends an
assistant "Request failed: ..." bubble instead of propagating. -/
theorem C4_error_containment (env : GeoEnv) :
    (∀ e, (loadGeoTiffRun env).1 = .error e → (loadGeoTiffOverlay env).1 = none) ∧
    (∀ e, env.loadLibsR = .error e → loadGeoTiffOverlay env = (none, [])) ∧
    (env.loadLibsR = .ok () → env.geotiffLib = false →
      loadGeoTiffOverlay env = (none, [])) ∧
    (∀ e, env.loadLibsR = .ok () → env.geotiffLib = true → env.fetchR = .error e →
      loadGeoTiffOverlay env = (none, [])) ∧
    (env.loadLibsR = .ok () → env.geotiffLib = true → env.fetchR = .ok { ok := false } →
      loadGeoTiffOverlay env = (none, [])) ∧
    (∀ img, env.loadLibsR = .ok () → env.geotiffLib = true →
      env.fetchR = .ok { ok := true } → env.parseR = .ok img →
      (img.boundingBox = none ∨ (∃ bs, img.boundingBox = some bs ∧ bs.length ≠ 4)) →
      loadGeoTiffOverlay env = (none, [])) ∧
    (∀ img bs, env.loadLibsR = .ok () → env.geotiffLib = true →
      env.fetchR = .ok { ok := true } → env.parseR = .ok img →
      img.boundingBox = some bs → bs.length = 4 →
      ((projCorners env bs).1.all jsIsFinite && (projCorners env bs).2.all jsIsFinite)
        = false →
      loadGeoTiffOverlay env = (none, [])) ∧
    (∀ img bs e, env.loadLibsR = .ok () → env.geotiffLib = true →
      env.fetchR = .ok { ok := true } → env.parseR = .ok img →
      img.boundingBox = some bs → bs.length = 4 →
      ((projCorners env bs).1.all jsIsFinite && (projCorners env bs).2.all jsIsFinite)
        = true →
      env.renderR = .error e →
      loadGeoTiffOverlay env = (none, [])) ∧
    (∀ msgs em, chatSubmitAppend msgs (.error em) = msgs ++ [chatCatchMessage em]) ∧
    (∀ em, (chatCatchMessage em).role = "assistant" ∧
      ∃ rest, (chatCatchMessage em).text = "Request failed: " ++ rest) := by
  refine ⟨?_, ?_, ?_, ?_, ?_, ?_, ?_, ?_, ?_, ?_⟩
  · intro e he
    unfold loadGeoTiffOverlay
    rcases hq : loadGeoTiffRun env with ⟨f, ls⟩
    rw [hq] at he
    dsimp at he
    cases f with
    | ok r => exact absurd he (by simp)
    | error e2 => simp
  · intro e h
    simp [loadGeoTiffOverlay, loadGeoTiffRun, h]
  · intro h1 h2
    simp [loadGeoTiffOverlay, loadGeoTiffRun, h1, h2]
  · intro e h1 h2 h3
    simp [loadGeoTiffOverlay, loadGeoTiffRun, h1, h2, h3]
  · intro h1 h2 h3
    simp [loadGeoTiffOverlay, loadGeoTiffRun, h1, h2, h3]
  · intro img h1 h2 h3 h4 hbb
    rcases hbb with hb | ⟨bs, hb, hlen⟩
    · simp [loadGeoTiffOverlay, loadGeoTiffRun, h1, h2, h3, h4, hb]
    · simp [loadGeoTiffOverlay, loadGeoTiffRun, h1, h2, h3, h4, hb, hlen]
  · intro img bs h1 h2 h3 h4 hb hlen hfin
    simp [loadGeoTiffOverlay, loadGeoTiffRun, h1, h2, h3, h4, hb, hlen, hfin]
  · intro img bs e h1 h2 h3 h4 hb hlen hfin hr
    simp [loadGeoTiffOverlay, loadGeoTiffRun, h1, h2, h3, h4, hb, hlen, hfin, hr]
  · intro msgs em
    rfl
  · intro em
    refine ⟨rfl, ?_⟩
    cases em with
    | none => exact ⟨"Backend connection error", rfl⟩
    | some m =>
      by_cases hm : m = ""
      · exact ⟨"Backend connection error", by simp [chatCatchMessage, hm]⟩
      · exact ⟨m, by simp [chatCatchMessage, hm]⟩

/-- An environment whose fetch returns a non-ok response. -/
def envFetchFail : GeoEnv :=
  { loadLibsR := .ok (), geotiffLib := true, proj4Libs := true
    fetchR := .ok { ok := false }, parseR := .error "unreached"
    projR := .error "unreached", renderR := .error "unreached"
    addBelowR := .ok (), addTopR := .ok (), setCameraR := .ok () }

/-- C4 witness: the non-ok fetch environment yields a `null` result
with no layer added, and a concrete failed chat request appends the
"Request failed" bubble. -/
theorem C4_witness :
    loadGeoTiffOverlay envFetchFail = (none, []) ∧
    chatSubmitAppend [] (.error (some "HTTP 500: Internal Server Error")) =
      [chatCatchMessage (some "HTTP 500: Internal Server Error")] :=
  ⟨(C4_error_containment envFetchFail).2.2.2.2.1 rfl rfl rfl,
   (C4_error_containment envFetchFail).2.2.2.2.2.2.2.2.1 []
     (some "HTTP 500: Internal Server Error")⟩

/-! ### C5 — tile index / bounds round trip -/

/-- The Mercator `y` kernel inverts: feeding the latitude
`arctan (sinh t) * 180 / π` back through
`log (tan (lat·π/180) + 1 / cos (lat·π/180))` returns `t`. -/
theorem mercator_y_roundtrip (t : ℝ) :
    Real.log (Real.tan (Real.arctan (Real.sinh t) * 180 / Real.pi * Real.pi / 180) +
      1 / Real.cos (Real.arctan (Real.sinh t) * 180 / Real.pi * Real.pi / 180)) = t := by
  have e2 : Real.arctan (Real.sinh t) * 180 / Real.pi * Real.pi / 180 =
      Real.arctan (Real.sinh t) := by
    field_simp
  rw [e2, Real.tan_arctan, Real.cos_arctan, one_div_one_div]
  have h3 : Real.sqrt (1 + Real.sinh t ^ 2) = Real.cosh t := by
    rw [show (1 + Real.sinh t ^ 2) = Real.cosh t ^ 2 by rw [Real.cosh_sq]; ring]
    exact Real.sqrt_sq (Real.cosh_pos t).le
  rw [h3, Real.sinh_add_cosh, Real.log_exp]

/-- C5: for every zoom `z ≥ 0` and tile `0 ≤ x < 2^z`, `0 ≤ y < 2^z`,
`lonLatToTile` applied to the northwest corner of
`tileToBounds x y z` returns `(x, y, z)`. -/
theorem C5_tile_roundtrip (z x y : ℕ) (_hx : x < 2 ^ z) (_hy : y < 2 ^ z) :
    lonLatToTile (tileToBounds x y z).west (tileToBounds x y z).north z =
      ((x : ℤ), (y : ℤ), z) := by
  have hn : (0 : ℝ) < (2 : ℝ) ^ z := by positivity
  have hn0 : ((2 : ℝ) ^ z) ≠ 0 := ne_of_gt hn
  unfold lonLatToTile tileToBounds
  dsimp only
  simp only [Prod.mk.injEq]
  refine ⟨?_, ?_, trivial⟩
  · have e1 : ((x : ℝ) / (2 : ℝ) ^ z * 360 - 180 + 180) / 360 * (2 : ℝ) ^ z = (x : ℝ) := by
      field_simp
      ring
    rw [e1, Int.floor_natCast]
  · rw [mercator_y_roundtrip]
    have e3 : (1 - (Real.pi * (1 - 2 * (y : ℝ) / (2 : ℝ) ^ z)) / Real.pi) / 2 *
        (2 : ℝ) ^ z = (y : ℝ) := by
      have hpi := Real.pi_ne_zero
      field_simp
      ring
    rw [e3, Int.floor_natCast]

/-- C5 witness: the single tile of zoom 0 round-trips. -/
theorem C5_witness :
    lonLatToTile (tileToBounds 0 0 0).west (tileToBounds 0 0 0).north 0 =
      ((0 : ℤ), (0 : ℤ), (0 : ℕ)) :=
  C5_tile_roundtrip 0 0 0 (by norm_num) (by norm_num)

/-! ### C6 — linear color-stop interpolation -/

/-- The scan interpolates at the first bracketing pair of stops. -/
theorem interpScan_first_bracket (v : ℚ) :
    ∀ (i : ℕ) (colors : List String) (values : List ℚ)
      (c1 c2 : String) (v1 v2 : ℚ),
      colors.get? i = some c1 → colors.get? (i + 1) = some c2 →
      values.get? i = some v1 → values.get? (i + 1) = some v2 →
      v1 ≤ v → v ≤ v2 → v1 < v2 →
      (∀ j w1 w2, j < i → values.get? j = some w1 → values.get? (j + 1) = some w2 →
        ¬(w1 ≤ v ∧ v ≤ w2)) →
      interpScan (.num v) colors values =
        some (lerpChan (hexToRgb c1).1 (hexToRgb c2).1 (.num ((v - v1) / (v2 - v1))),
          lerpChan (hexToRgb c1).2.1 (hexToRgb c2).2.1 (.num ((v - v1) / (v2 - v1))),
          lerpChan (hexToRgb c1).2.2 (hexToRgb c2).2.2 (.num ((v - v1) / (v2 - v1)))) := by
  intro i
  induction i with
  | zero =>
    intro colors values c1 c2 v1 v2 hc1 hc2 hv1 hv2 hle1 hle2 hlt hmin
    cases colors with
    | nil => simp at hc1
    | cons a t =>
      cases t with
      | nil => simp at hc2
      | cons b t2 =>
        cases values with
        | nil => simp at hv1
        | cons w vt =>
          cases vt with
          | nil => simp at hv2
          | cons w2 vs =>
            simp only [List.get?_cons_zero, List.get?_cons_succ,
              Option.some.injEq] at hc1 hc2 hv1 hv2
            subst hc1; subst hc2; subst hv1; subst hv2
            have hne : w2 - w ≠ 0 := sub_ne_zero.mpr (ne_of_gt hlt)
            simp [interpScan, jsLe, jsSubC, jsDivC, jsDivQ, hne, hle1, hle2]
  | succ i ih =>
    intro colors values c1 c2 v1 v2 hc1 hc2 hv1 hv2 hle1 hle2 hlt hmin
    cases colors with
    | nil => simp at hc1
    | cons a t =>
      cases t with
      | nil => simp at hc1
      | cons b t2 =>
        cases values with
        | nil => simp at hv1
        | cons w vt =>
          cases vt with
          | nil => simp at hv1
          | cons w2 vs =>
            have hhead := hmin 0 w w2 (Nat.succ_pos i) rfl rfl
            have hb : (jsLe (.num w) (.num v) && jsLe (.num v) (.num w2)) = false := by
              rcases not_and_or.mp hhead with h | h <;> simp [jsLe, h]
            simp only [interpScan, hb, Bool.false_eq_true, if_false]
            exact ih (b :: t2) (w2 :: vs) c1 c2 v1 v2 (by simpa using hc1)
              (by simpa using hc2) (by simpa using hv1) (by simpa using hv2)
              hle1 hle2 hlt
              (fun j u1 u2 hj h1 h2 =>
                hmin (j + 1) u1 u2 (Nat.succ_lt_succ hj) (by simpa using h1)
                  (by simpa using h2))

/-- The scan finds nothing when the value is left of every stop. -/
theorem interpScan_none_lt (v : ℚ) :
    ∀ (values : List ℚ) (colors : List String),
      (∀ w ∈ values, v < w) → interpScan (.num v) colors values = none := by
  intro values
  induction values with
  | nil =>
    intro colors _
    cases colors with
    | nil => rfl
    | cons c t => cases t <;> rfl
  | cons v1 vt ih =>
    intro colors h
    cases colors with
    | nil => rfl
    | cons c1 ct =>
      cases vt with
      | nil => cases ct <;> rfl
      | cons v2 vs =>
        cases ct with
        | nil => rfl
        | cons c2 cs =>
          have hv1 : ¬(v1 ≤ v) := not_le.mpr (h v1 (by simp))
          have hb : (jsLe (.num v1) (.num v) && jsLe (.num v) (.num v2)) = false := by
            simp [jsLe, hv1]
          simp only [interpScan, hb, Bool.false_eq_true, if_false]
          exact ih (c2 :: cs) (fun w hw => h w (List.mem_cons_of_mem _ hw))

/-- The scan finds nothing when the value is right of every stop. -/
theorem interpScan_none_gt (v : ℚ) :
    ∀ (values : List ℚ) (colors : List String),
      (∀ w ∈ values, w < v) → interpScan (.num v) colors values = none := by
  intro values
  induction values with
  | nil =>
    intro colors _
    cases colors with
    | nil => rfl
    | cons c t => cases t <;> rfl
  | cons v1 vt ih =>
    intro colors h
    cases colors with
    | nil => rfl
    | cons c1 ct =>
      cases vt with
      | nil => cases ct <;> rfl
      | cons v2 vs =>
        cases ct with
        | nil => rfl
        | cons c2 cs =>
          have hv2 : ¬(v ≤ v2) := not_le.mpr (h v2 (by simp))
          have hb : (jsLe (.num v1) (.num v) && jsLe (.num v) (.num v2)) = false := by
            simp [jsLe, hv2]
          simp only [interpScan, hb, Bool.false_eq_true, if_false]
          exact ih (c2 :: cs) (fun w hw => h w (List.mem_cons_of_mem _ hw))

/-- Every member of a `≤`-sorted list is bounded by the last element. -/
theorem sorted_le_getLast :
    ∀ (l : List ℚ), l.Sorted (· ≤ ·) → ∀ w ∈ l, ∀ vl, l.getLast? = some vl → w ≤ vl := by
  intro l
  induction l with
  | nil => intro _ w hw; simp at hw
  | cons a t ih =>
    intro hs w hw vl hl
    rcases List.sorted_cons.mp hs with ⟨ha, ht⟩
    cases t with
    | nil =>
      simp only [List.getLast?_singleton, Option.some.injEq] at hl
      simp only [List.mem_singleton] at hw
      subst hl
      subst hw
      exact le_refl w
    | cons b t2 =>
      rw [List.getLast?_cons_cons] at hl
      rcases List.mem_cons.mp hw with rfl | hwt
      · have hvl : vl ∈ b :: t2 := by
          rcases List.mem_getLast?_eq_getLast (show vl ∈ (b :: t2).getLast? from hl)
            with ⟨hne, heq⟩
          rw [heq]
          exact List.getLast_mem hne
        exact ha vl hvl
      · exact ih ht w hwt vl hl

/-- Every member of a `≤`-sorted list dominates the head. -/
theorem sorted_head_le (a : ℚ) (t : List ℚ) (hs : (a :: t).Sorted (· ≤ ·)) :
    ∀ w ∈ a :: t, a ≤ w := by
  intro w hw
  rcases List.mem_cons.mp hw with rfl | hwt
  · exact le_refl w
  · exact (List.sorted_cons.mp hs).1 w hwt

/-- C6: with equal-length stop arrays, `interpolateColormap` returns
the per-channel `round(c1 + (c2 - c1) * r)` at the first bracketing
stop pair; a value below the first stop of a sorted colormap returns
the first stop's color, one above the last stop the last stop's color;
mismatched array lengths return gray. -/
theorem C6_interpolate_colormap (colors : List String) (values : List ℚ) (v : ℚ) :
    (∀ (i : ℕ) (c1 c2 : String) (v1 v2 : ℚ),
      colors.length = values.length →
      colors.get? i = some c1 → colors.get? (i + 1) = some c2 →
      values.get? i = some v1 → values.get? (i + 1) = some v2 →
      v1 ≤ v → v ≤ v2 → v1 < v2 →
      (∀ j w1 w2, j < i → values.get? j = some w1 → values.get? (j + 1) = some w2 →
        ¬(w1 ≤ v ∧ v ≤ w2)) →
      interpolateColormap (.num v) colors values =
        (.num (jround ((hexToRgb c1).1 +
            (((hexToRgb c2).1 : ℚ) - ((hexToRgb c1).1 : ℚ)) * ((v - v1) / (v2 - v1)))),
         .num (jround ((hexToRgb c1).2.1 +
            (((hexToRgb c2).2.1 : ℚ) - ((hexToRgb c1).2.1 : ℚ)) * ((v - v1) / (v2 - v1)))),
         .num (jround ((hexToRgb c1).2.2 +
            (((hexToRgb c2).2.2 : ℚ) - ((hexToRgb c1).2.2 : ℚ)) * ((v - v1) / (v2 - v1)))))) ∧
    (∀ (v0 : ℚ) (c0 : String),
      colors.length = values.length → values.Sorted (· ≤ ·) →
      values.head? = some v0 → colors.head? = some c0 → v < v0 →
      interpolateColormap (.num v) colors values = intRgb (hexToRgb c0)) ∧
    (∀ (vl : ℚ) (cl : String),
      colors.length = values.length → values.Sorted (· ≤ ·) →
      values.getLast? = some vl → colors.getLast? = some cl → vl < v →
      interpolateColormap (.num v) colors values = intRgb (hexToRgb cl)) ∧
    (colors.length ≠ values.length →
      interpolateColormap (.num v) colors values = (.num 128, .num 128, .num 128)) := by
  refine ⟨?_, ?_, ?_, ?_⟩
  · intro i c1 c2 v1 v2 hlen hc1 hc2 hv1 hv2 hle1 hle2 hlt hmin
    have hscan := interpScan_first_bracket v i colors values c1 c2 v1 v2
      hc1 hc2 hv1 hv2 hle1 hle2 hlt hmin
    unfold interpolateColormap
    rw [if_neg (by omega), hscan]
    rfl
  · intro v0 c0 hlen hsort hv0 hc0 hlt
    cases values with
    | nil => simp at hv0
    | cons a t =>
      simp only [List.head?_cons, Option.some.injEq] at hv0
      subst hv0
      have hall : ∀ w ∈ a :: t, v < w := fun w hw =>
        lt_of_lt_of_le hlt (sorted_head_le a t hsort w hw)
      have hscan := interpScan_none_lt v (a :: t) colors hall
      unfold interpolateColormap
      rw [if_neg (by omega), hscan]
      simp only [List.head?_cons]
      rw [if_pos (by simp [jsLt, hlt])]
      congr 1
      cases colors with
      | nil => simp at hc0
      | cons b t2 =>
        simp only [List.head?_cons, Option.some.injEq] at hc0
        subst hc0
        rfl
  · intro vl cl hlen hsort hvl hcl hlt
    have hall : ∀ w ∈ values, w < v := fun w hw =>
      lt_of_le_of_lt (sorted_le_getLast values hsort w hw vl hvl) hlt
    have hscan := interpScan_none_gt v values colors hall
    unfold interpolateColormap
    rw [if_neg (by omega), hscan]
    cases values with
    | nil => simp at hvl
    | cons a t =>
      simp only [List.head?_cons]
      have hva : a < v := hall a (by simp)
      rw [if_neg (by simp [jsLt]; exact le_of_lt hva)]
      congr 1
      have : colors.getLastD "" = cl := by
        cases hx : colors.getLast? with
        | none => rw [hx] at hcl; simp at hcl
        | some c =>
          rw [hx] at hcl
          simp only [Option.some.injEq] at hcl
          subst hcl
          rw [List.getLastD_eq_getLast?, hx]
          rfl
      rw [this]
  · intro h
    unfold interpolateColormap
    rw [if_pos (by omega)]

/-- C6 witness: a two-stop colormap interpolating the midpoint of
`[0, 10]` at `v = 5` yields the rounded mid color `[50, 50, 50]`. -/
theorem C6_witness :
    interpolateColormap (.num 5) ["#000000", "#646464"] [0, 10] =
      (.num 50, .num 50, .num 50) := by
  have h := (C6_interpolate_colormap ["#000000", "#646464"] [0, 10] 5).1 0
    "#000000" "#646464" 0 10 rfl rfl rfl rfl rfl (by norm_num) (by norm_num)
    (by norm_num) (fun j w1 w2 hj _ _ => absurd hj (Nat.not_lt_zero j))
  have e1 : hexToRgb "#000000" = ((0 : ℤ), (0 : ℤ), (0 : ℤ)) := by decide
  have e2 : hexToRgb "#646464" = ((100 : ℤ), (100 : ℤ), (100 : ℤ)) := by decide
  rw [h, e1, e2]
  norm_num [jround, Int.floor_eq_iff]

/-! ### C10 — color output ranges -/

/-- Character order transfers to code points. -/
theorem char_toNat_le {c d : Char} (h : c ≤ d) : c.toNat ≤ d.toNat := by
  have h2 : c.val.toNat ≤ d.val.toNat := Char.le_def.mp h
  simpa [Char.toNat] using h2

/-- A hex digit decodes to a value below 16. -/
theorem hexVal_le_15 {c : Char} (h : isHexDigit c = true) : hexVal c ≤ 15 := by
  unfold isHexDigit at h
  simp only [Bool.or_eq_true, Bool.and_eq_true, decide_eq_true_eq] at h
  unfold hexVal
  rcases h with (hd | ⟨h1, h2⟩) | ⟨h1, h2⟩
  · rw [if_pos hd]
    simp only [Char.isDigit, Bool.and_eq_true, decide_eq_true_eq] at hd
    have hb : c.toNat ≤ 57 := hd.2
    have e0 : ('0' : Char).toNat = 48 := rfl
    omega
  · have ha : ('a' : Char).toNat ≤ c.toNat := char_toNat_le h1
    have hf : c.toNat ≤ ('f' : Char).toNat := char_toNat_le h2
    have ea : ('a' : Char).toNat = 97 := rfl
    have ef : ('f' : Char).toNat = 102 := rfl
    have hnd : c.isDigit = false := by
      cases hid : c.isDigit with
      | false => rfl
      | true =>
        simp only [Char.isDigit, Bool.and_eq_true, decide_eq_true_eq] at hid
        have h57 : c.toNat ≤ 57 := hid.2
        omega
    rw [if_neg (by simp [hnd]), if_pos h1]
    omega
  · have ha : ('A' : Char).toNat ≤ c.toNat := char_toNat_le h1
    have hf : c.toNat ≤ ('F' : Char).toNat := char_toNat_le h2
    have ea : ('A' : Char).toNat = 65 := rfl
    have ef : ('F' : Char).toNat = 70 := rfl
    have hnd : c.isDigit = false := by
      cases hid : c.isDigit with
      | false => rfl
      | true =>
        simp only [Char.isDigit, Bool.and_eq_true, decide_eq_true_eq] at hid
        have h57 : c.toNat ≤ 57 := hid.2
        omega
    have hna : ¬ ('a' ≤ c) := by
      intro hac
      have := char_toNat_le hac
      have e97 : ('a' : Char).toNat = 97 := rfl
      omega
    rw [if_neg (by simp [hnd]), if_neg hna]
    omega

/-- Both `hexToRgb` outcomes (decoded bytes or the gray fallback) lie
in `0..255` in every channel. -/
theorem hexToRgb_range (s : String) :
    (0 ≤ (hexToRgb s).1 ∧ (hexToRgb s).1 ≤ 255) ∧
    (0 ≤ (hexToRgb s).2.1 ∧ (hexToRgb s).2.1 ≤ 255) ∧
    (0 ≤ (hexToRgb s).2.2 ∧ (hexToRgb s).2.2 ≤ 255) := by
  unfold hexToRgb
  generalize hexStrip s.data = cs
  unfold hexDecode
  split
  · rename_i a b c d e f
    split
    · rename_i hguard
      simp only [Bool.and_eq_true] at hguard
      obtain ⟨⟨⟨⟨⟨hA, hB⟩, hC⟩, hD⟩, hE⟩, hF⟩ := hguard
      have bA := hexVal_le_15 hA
      have bB := hexVal_le_15 hB
      have bC := hexVal_le_15 hC
      have bD := hexVal_le_15 hD
      have bE := hexVal_le_15 hE
      have bF := hexVal_le_15 hF
      refine ⟨⟨?_, ?_⟩, ⟨?_, ?_⟩, ?_, ?_⟩ <;> simp <;> omega
    · norm_num
  · norm_num

/-- `Math.round` keeps a value of `[0, 255]` inside `0..255`. -/
theorem jround_byte {q : ℚ} (h0 : 0 ≤ q) (h255 : q ≤ 255) :
    0 ≤ jround q ∧ jround q ≤ 255 := by
  unfold jround
  constructor
  · exact Int.floor_nonneg.mpr (by linarith)
  · have hlt : q + 1 / 2 < ((256 : ℤ) : ℚ) := by push_cast; linarith
    have h2 := Int.floor_lt.mpr hlt
    omega

/-- A channel holding a finite integer in `0..255`. -/
def byteRange (c : JSNum) : Prop := ∃ n : ℤ, c = .num (n : ℚ) ∧ 0 ≤ n ∧ n ≤ 255

/-- All three channels are integers in `0..255`. -/
def byteRGB (t : JSNum × JSNum × JSNum) : Prop :=
  byteRange t.1 ∧ byteRange t.2.1 ∧ byteRange t.2.2

/-- A rational equal to an integer of `0..255` is a byte channel. -/
theorem byteRange_of_eq (n : ℤ) (h0 : 0 ≤ n) (h255 : n ≤ 255) (q : ℚ)
    (hq : q = (n : ℚ)) : byteRange (.num q) := ⟨n, by rw [hq], h0, h255⟩

/-- Decoded hex triples are byte triples. -/
theorem intRgb_hex_byte (s : String) : byteRGB (intRgb (hexToRgb s)) := by
  obtain ⟨⟨a1, a2⟩, ⟨b1, b2⟩, c1, c2⟩ := hexToRgb_range s
  exact ⟨⟨(hexToRgb s).1, rfl, a1, a2⟩, ⟨(hexToRgb s).2.1, rfl, b1, b2⟩,
    ⟨(hexToRgb s).2.2, rfl, c1, c2⟩⟩

/-- A linear mix of two bytes with ratio in `[0, 1]` stays in range. -/
theorem lerp_mem {c1 c2 : ℤ} {r : ℚ} (h1 : 0 ≤ c1) (h2 : c1 ≤ 255) (h3 : 0 ≤ c2)
    (h4 : c2 ≤ 255) (hr0 : 0 ≤ r) (hr1 : r ≤ 1) :
    0 ≤ (c1 : ℚ) + ((c2 : ℚ) - (c1 : ℚ)) * r ∧
      (c1 : ℚ) + ((c2 : ℚ) - (c1 : ℚ)) * r ≤ 255 := by
  have g1 : (0 : ℚ) ≤ (c1 : ℚ) := by exact_mod_cast h1
  have g2 : (c1 : ℚ) ≤ 255 := by exact_mod_cast h2
  have g3 : (0 : ℚ) ≤ (c2 : ℚ) := by exact_mod_cast h3
  have g4 : (c2 : ℚ) ≤ 255 := by exact_mod_cast h4
  rcases le_total (c1 : ℚ) (c2 : ℚ) with hle | hle
  · constructor
    · nlinarith
    · nlinarith
  · constructor
    · nlinarith
    · nlinarith

/-- An interpolated channel at a ratio in `[0, 1]` is a byte channel. -/
theorem lerpChan_byte {c1 c2 : ℤ} {r : ℚ} (h1 : 0 ≤ c1) (h2 : c1 ≤ 255) (h3 : 0 ≤ c2)
    (h4 : c2 ≤ 255) (hr0 : 0 ≤ r) (hr1 : r ≤ 1) :
    byteRange (lerpChan c1 c2 (.num r)) := by
  have he : lerpChan c1 c2 (.num r) =
      .num ((jround ((c1 : ℚ) + ((c2 : ℚ) - (c1 : ℚ)) * r) : ℤ) : ℚ) := rfl
  obtain ⟨hm0, hm1⟩ := lerp_mem h1 h2 h3 h4 hr0 hr1
  obtain ⟨hj0, hj1⟩ := jround_byte hm0 hm1
  exact ⟨_, he, hj0, hj1⟩

/-- Every triple the scan produces, for stop arrays without equal
adjacent entries, is a byte triple. -/
theorem interpScan_byte (v : ℚ) :
    ∀ (values : List ℚ) (colors : List String) (rgb : JSNum × JSNum × JSNum),
      values.Chain' (· ≠ ·) →
      interpScan (.num v) colors values = some rgb → byteRGB rgb := by
  intro values
  induction values with
  | nil =>
    intro colors rgb _ h
    cases colors with
    | nil => simp [interpScan] at h
    | cons c t => cases t <;> simp [interpScan] at h
  | cons v1 vt ih =>
    intro colors rgb hch h
    cases colors with
    | nil => simp [interpScan] at h
    | cons c1 ct =>
      cases vt with
      | nil => cases ct <;> simp [interpScan] at h
      | cons v2 vs =>
        cases ct with
        | nil => simp [interpScan] at h
        | cons c2 cs =>
          obtain ⟨hne12, hch2⟩ := List.chain'_cons.mp hch
          by_cases hb : (jsLe (.num v1) (.num v) && jsLe (.num v) (.num v2)) = true
          · have hb2 := hb
            simp only [jsLe, Bool.and_eq_true, decide_eq_true_eq] at hb2
            obtain ⟨hle1, hle2⟩ := hb2
            have hlt : v1 < v2 := lt_of_le_of_ne (le_trans hle1 hle2) hne12
            have hdpos : (0 : ℚ) < v2 - v1 := sub_pos.mpr hlt
            simp only [interpScan, hb, if_true] at h
            have hrr : jsDivC (jsSubC (.num v) v1) (v2 - v1) =
                .num ((v - v1) / (v2 - v1)) := by
              simp [jsSubC, jsDivC, jsDivQ, ne_of_gt hdpos]
            rw [hrr] at h
            simp only [Option.some.injEq] at h
            subst h
            have hr0 : 0 ≤ (v - v1) / (v2 - v1) :=
              div_nonneg (by linarith) (le_of_lt hdpos)
            have hr1 : (v - v1) / (v2 - v1) ≤ 1 :=
              (div_le_one hdpos).mpr (by linarith)
            obtain ⟨⟨a1, a2⟩, ⟨b1, b2⟩, d1, d2⟩ := hexToRgb_range c1
            obtain ⟨⟨e1, e2⟩, ⟨f1, f2⟩, g1, g2⟩ := hexToRgb_range c2
            exact ⟨lerpChan_byte a1 a2 e1 e2 hr0 hr1,
              lerpChan_byte b1 b2 f1 f2 hr0 hr1,
              lerpChan_byte d1 d2 g1 g2 hr0 hr1⟩
          · have hbf : (jsLe (.num v1) (.num v) && jsLe (.num v) (.num v2)) = false :=
              Bool.eq_false_iff.mpr hb
            simp only [interpScan, hbf, Bool.false_eq_true, if_false] at h
            exact ih (c2 :: cs) rgb hch2 h

/-- Adding a finite constant preserves non-NaN. -/
theorem jsAddC_ne_nan {x : JSNum} (hx : x ≠ .nan) (b : ℚ) : jsAddC x b ≠ .nan := by
  cases x with
  | nan => exact absurd rfl hx
  | posinf => simp [jsAddC]
  | neginf => simp [jsAddC]
  | num q => simp [jsAddC]

/-- Subtracting a finite constant preserves non-NaN. -/
theorem jsSubC_ne_nan {x : JSNum} (hx : x ≠ .nan) (b : ℚ) : jsSubC x b ≠ .nan := by
  cases x with
  | nan => exact absurd rfl hx
  | posinf => simp [jsSubC]
  | neginf => simp [jsSubC]
  | num q => simp [jsSubC]

/-- Dividing a non-NaN value by a non-zero constant is not NaN. -/
theorem jsDivC_ne_nan {x : JSNum} (hx : x ≠ .nan) {d : ℚ} (hd : d ≠ 0) :
    jsDivC x d ≠ .nan := by
  cases x with
  | nan => exact absurd rfl hx
  | posinf =>
    simp only [jsDivC]
    split <;> simp
  | neginf =>
    simp only [jsDivC]
    split <;> simp
  | num q => simp [jsDivC, jsDivQ, hd]

/-- The `Math.max(0, Math.min(1, _))` clamp of a non-NaN value is a
finite number in `[0, 1]`. -/
theorem clamp_res {x : JSNum} (hx : x ≠ .nan) :
    ∃ n : ℚ, jsMaxQ 0 (jsMinQ 1 x) = .num n ∧ 0 ≤ n ∧ n ≤ 1 := by
  cases x with
  | nan => exact absurd rfl hx
  | posinf =>
    refine ⟨1, ?_, by norm_num, le_refl 1⟩
    simp [jsMinQ, jsMaxQ]
  | neginf =>
    refine ⟨0, ?_, le_refl 0, by norm_num⟩
    simp [jsMinQ, jsMaxQ]
  | num q =>
    exact ⟨max 0 (min 1 q), by simp [jsMinQ, jsMaxQ], le_max_left 0 _,
      max_le (by norm_num) (min_le_left 1 q)⟩

/-- `piQ` is positive. -/
theorem piQ_pos : (0 : ℚ) < piQ := by norm_num [piQ]

/-- A rounded channel value built from bounds in `[0, 255]`. -/
theorem byteRange_jround {q : ℚ} (h0 : 0 ≤ q) (h255 : q ≤ 255) :
    byteRange (.num ((jround q : ℤ) : ℚ)) := by
  obtain ⟨u1, u2⟩ := jround_byte h0 h255
  exact ⟨jround q, rfl, u1, u2⟩

/-- A triple of explicit integer constants in range. -/
theorem byteRGB_of_eq (t : JSNum × JSNum × JSNum) (a b c : ℤ)
    (h : t = (.num (a : ℚ), .num (b : ℚ), .num (c : ℚ)))
    (ha : 0 ≤ a ∧ a ≤ 255) (hb : 0 ≤ b ∧ b ≤ 255) (hc : 0 ≤ c ∧ c ≤ 255) :
    byteRGB t := by
  subst h
  exact ⟨⟨a, rfl, ha.1, ha.2⟩, ⟨b, rfl, hb.1, hb.2⟩, ⟨c, rfl, hc.1, hc.2⟩⟩

/-- The SPI class colors are byte triples (for every input). -/
theorem getSPIColor_byte (s : JSNum) : byteRGB (getSPIColor s) := by
  unfold getSPIColor
  split_ifs
  · exact byteRGB_of_eq _ 139 0 0 (by norm_num [rgbn]) (by norm_num) (by norm_num) (by norm_num)
  · exact byteRGB_of_eq _ 255 0 0 (by norm_num [rgbn]) (by norm_num) (by norm_num) (by norm_num)
  · exact byteRGB_of_eq _ 255 140 0 (by norm_num [rgbn]) (by norm_num) (by norm_num) (by norm_num)
  · exact byteRGB_of_eq _ 255 255 0 (by norm_num [rgbn]) (by norm_num) (by norm_num) (by norm_num)
  · exact byteRGB_of_eq _ 144 238 144 (by norm_num [rgbn]) (by norm_num) (by norm_num) (by norm_num)
  · exact byteRGB_of_eq _ 0 191 255 (by norm_num [rgbn]) (by norm_num) (by norm_num) (by norm_num)
  · exact byteRGB_of_eq _ 0 0 255 (by norm_num [rgbn]) (by norm_num) (by norm_num) (by norm_num)
  · exact byteRGB_of_eq _ 0 0 139 (by norm_num [rgbn]) (by norm_num) (by norm_num) (by norm_num)

/-- Temperature colors are byte triples for non-NaN input, given the
sine bound on `[0, π]`. -/
theorem getTemperatureColor_byte (jsSin : ℚ → ℚ)
    (hs : ∀ x : ℚ, 0 ≤ x → x ≤ piQ → 0 ≤ jsSin x ∧ jsSin x ≤ 1)
    {t : JSNum} (ht : t ≠ .nan) : byteRGB (getTemperatureColor jsSin t) := by
  obtain ⟨n, hn, h0, h1⟩ :=
    clamp_res (jsDivC_ne_nan (jsAddC_ne_nan ht 40) (by norm_num : (90 : ℚ) ≠ 0))
  unfold getTemperatureColor
  rw [hn]
  have hsin := hs (n * piQ) (mul_nonneg h0 (le_of_lt piQ_pos))
    (by nlinarith [piQ_pos])
  exact ⟨byteRange_jround (by nlinarith) (by nlinarith),
    byteRange_jround (by nlinarith [hsin.1]) (by nlinarith [hsin.2]),
    byteRange_jround (by nlinarith) (by nlinarith)⟩

/-- Precipitation colors are byte triples for non-NaN input. -/
theorem getPrecipitationColor_byte {p : JSNum} (hp : p ≠ .nan) :
    byteRGB (getPrecipitationColor p) := by
  obtain ⟨n, hn, h0, h1⟩ := clamp_res (jsDivC_ne_nan hp (by norm_num : (100 : ℚ) ≠ 0))
  unfold getPrecipitationColor
  rw [hn]
  exact ⟨byteRange_jround (by nlinarith) (by nlinarith),
    byteRange_jround (by nlinarith) (by nlinarith),
    ⟨255, by norm_num, by norm_num, by norm_num⟩⟩

/-- Pressure colors are byte triples for non-NaN input. -/
theorem getPressureColor_byte {p : JSNum} (hp : p ≠ .nan) :
    byteRGB (getPressureColor p) := by
  obtain ⟨n, hn, h0, h1⟩ :=
    clamp_res (jsDivC_ne_nan (jsSubC_ne_nan hp 980) (by norm_num : (60 : ℚ) ≠ 0))
  unfold getPressureColor
  rw [hn]
  exact ⟨byteRange_jround (by nlinarith) (by nlinarith),
    byteRange_jround (by nlinarith) (by nlinarith),
    byteRange_jround (by nlinarith) (by nlinarith)⟩

/-- Wind colors are byte triples for non-NaN input. -/
theorem getWindColor_byte {w : JSNum} (hw : w ≠ .nan) : byteRGB (getWindColor w) := by
  obtain ⟨n, hn, h0, h1⟩ := clamp_res (jsDivC_ne_nan hw (by norm_num : (50 : ℚ) ≠ 0))
  unfold getWindColor
  rw [hn]
  exact ⟨byteRange_jround (by nlinarith) (by nlinarith),
    byteRange_jround (by nlinarith) (by nlinarith),
    ⟨0, by norm_num, by norm_num, by norm_num⟩⟩

/-- Humidity colors are byte triples for non-NaN input. -/
theorem getHumidityColor_byte {h : JSNum} (hh : h ≠ .nan) :
    byteRGB (getHumidityColor h) := by
  obtain ⟨n, hn, h0, h1⟩ := clamp_res hh
  unfold getHumidityColor
  rw [hn]
  exact ⟨byteRange_jround (by nlinarith) (by nlinarith),
    byteRange_jround (by nlinarith) (by nlinarith),
    byteRange_jround (by nlinarith) (by nlinarith)⟩

/-- Radiation colors are byte triples for non-NaN input. -/
theorem getRadiationColor_byte {r : JSNum} (hr : r ≠ .nan) :
    byteRGB (getRadiationColor r) := by
  obtain ⟨n, hn, h0, h1⟩ := clamp_res (jsDivC_ne_nan hr (by norm_num : (1000 : ℚ) ≠ 0))
  unfold getRadiationColor
  rw [hn]
  exact ⟨byteRange_jround (by nlinarith) (by nlinarith),
    byteRange_jround (by nlinarith) (by nlinarith),
    byteRange_jround (by nlinarith) (by nlinarith)⟩

/-- Soil colors are byte triples for non-NaN input. -/
theorem getSoilColor_byte {s : JSNum} (hs : s ≠ .nan) : byteRGB (getSoilColor s) := by
  obtain ⟨n, hn, h0, h1⟩ := clamp_res hs
  unfold getSoilColor
  rw [hn]
  exact ⟨byteRange_jround (by nlinarith) (by nlinarith),
    byteRange_jround (by nlinarith) (by nlinarith),
    byteRange_jround (by nlinarith) (by nlinarith)⟩

/-- Generic colors are byte triples for non-NaN input. -/
theorem getGenericColor_byte {v : JSNum} (hv : v ≠ .nan) :
    byteRGB (getGenericColor v) := by
  obtain ⟨n, hn, h0, h1⟩ :=
    clamp_res (jsDivC_ne_nan (jsAddC_ne_nan hv 2) (by norm_num : (4 : ℚ) ≠ 0))
  unfold getGenericColor
  rw [hn]
  obtain ⟨u1, u2⟩ := jround_byte (q := 255 * n) (by nlinarith) (by nlinarith)
  refine ⟨⟨jround (255 * n), rfl, u1, u2⟩, ⟨jround (255 * n), rfl, u1, u2⟩,
    ⟨max 100 (jround (255 * n)), ?_, ?_, ?_⟩⟩
  · push_cast
    rfl
  · have := le_max_left (100 : ℤ) (jround (255 * n))
    omega
  · exact max_le (by norm_num) u2

/-- The variable-specific fallback always yields a byte triple on
non-NaN input. -/
theorem fallbackColor_byte (jsSin : ℚ → ℚ)
    (hs : ∀ x : ℚ, 0 ≤ x → x ≤ piQ → 0 ≤ jsSin x ∧ jsSin x ≤ 1)
    {v : JSNum} (hv : v ≠ .nan) (varName : String) :
    byteRGB (fallbackColor jsSin v varName) := by
  unfold fallbackColor
  split
  · exact getSPIColor_byte v
  · exact getTemperatureColor_byte jsSin hs hv
  · exact getPrecipitationColor_byte hv
  · exact getPressureColor_byte hv
  · exact getWindColor_byte hv
  · exact getHumidityColor_byte hv
  · exact getRadiationColor_byte hv
  · exact getSoilColor_byte hv
  · exact getGenericColor_byte hv

/-- Gray fallback triple. -/
theorem gray_byte : byteRGB ((.num 128, .num 128, .num 128) : JSNum × JSNum × JSNum) :=
  ⟨⟨128, by norm_num, by norm_num, by norm_num⟩,
   ⟨128, by norm_num, by norm_num, by norm_num⟩,
   ⟨128, by norm_num, by norm_num, by norm_num⟩⟩

/-- `interpolateColormap` always yields a byte triple when no two
adjacent stop values are equal. -/
theorem interpolateColormap_byte (v : ℚ) (cols : List String) (vals : List ℚ)
    (hch : vals.Chain' (· ≠ ·)) :
    byteRGB (interpolateColormap (.num v) cols vals) := by
  unfold interpolateColormap
  split
  · exact gray_byte
  · cases hscan : interpScan (.num v) cols vals with
    | some rgb => exact interpScan_byte v vals cols rgb hch hscan
    | none =>
      cases hv0 : vals.head? with
      | none =>
        simp only [hv0]
        exact intRgb_hex_byte _
      | some v0 =>
        simp only [hv0]
        split
        · exact intRgb_hex_byte _
        · exact intRgb_hex_byte _

/-- C10 (amended): for every finite value, variable name, and colormap
whose stop values have no two equal adjacent entries, `getVariableColor`
returns three integer channels in `0..255`; NaN input returns white. -/
theorem C10_color_range (jsSin : ℚ → ℚ)
    (hs : ∀ x : ℚ, 0 ≤ x → x ≤ piQ → 0 ≤ jsSin x ∧ jsSin x ≤ 1)
    (v : ℚ) (varName : String) (cm : Option Colormap)
    (hcm : ∀ c vals, cm = some c → c.values = some vals → vals.Chain' (· ≠ ·)) :
    byteRGB (getVariableColor jsSin (.num v) varName cm) ∧
    getVariableColor jsSin .nan varName cm = (.num 255, .num 255, .num 255) := by
  constructor
  · unfold getVariableColor
    rw [if_neg (by simp)]
    cases cm with
    | none => exact fallbackColor_byte jsSin hs (by simp) varName
    | some c =>
      cases hcol : c.colors with
      | none =>
        cases hval : c.values with
        | none =>
          simp only [hcol, hval]
          exact fallbackColor_byte jsSin hs (by simp) varName
        | some vals =>
          simp only [hcol, hval]
          exact fallbackColor_byte jsSin hs (by simp) varName
      | some cols =>
        cases hval : c.values with
        | none =>
          simp only [hcol, hval]
          exact fallbackColor_byte jsSin hs (by simp) varName
        | some vals =>
          simp only [hcol, hval]
          exact interpolateColormap_byte v cols vals (hcm c vals rfl hval)
  · rfl

/-- A colormap with two equal adjacent stops. -/
def degenerateColormap : Colormap :=
  { colors := some ["#000000", "#000000"], values := some [0, 0] }

/-- C10 counterexample: at the degenerate colormap the value 0 matches
the bracket `[0, 0]`, the JS ratio is `0/0 = NaN`, and all three
channels come out NaN — not integers in `0..255`. -/
theorem C10_counterexample :
    getVariableColor (fun _ => 0) (.num 0) "temperature" (some degenerateColormap) =
      (.nan, .nan, .nan) ∧
    ¬ byteRGB (getVariableColor (fun _ => 0) (.num 0) "temperature"
        (some degenerateColormap)) := by
  have he : getVariableColor (fun _ => 0) (.num 0) "temperature"
      (some degenerateColormap) = (.nan, .nan, .nan) := by
    simp [getVariableColor, degenerateColormap, interpolateColormap, interpScan,
      jsLe, jsSubC, jsDivC, jsDivQ, lerpChan, jsMulQ, jsAddQ, jsRound]
  refine ⟨he, ?_⟩
  rw [he]
  rintro ⟨⟨n, hn, -⟩, -⟩
  exact absurd hn (by simp)

/-- C10 witness: a concrete finite value with no colormap yields an
in-range triple, and NaN yields white. -/
theorem C10_witness :
    byteRGB (getVariableColor (fun _ => 0) (.num 3) "Rainf" none) ∧
    getVariableColor (fun _ => 0) .nan "Rainf" none = (.num 255, .num 255, .num 255) :=
  C10_color_range (fun _ => 0) (fun x h1 h2 => ⟨le_refl 0, by norm_num⟩) 3 "Rainf" none
    (fun c vals h => by simp at h)

end Spec2Proof
